import Mathlib

/-!
Verification of the scoring and signal-ranking pipeline of the Tsunami
"Tech Momentum Arbitrage Engine".

Shallow embedding conventions:
- Python `float` is modelled as `ℚ`; Python `int` as `ℤ` (counts that are
  list lengths appear as `ℕ` and are cast).
- `datetime` values are modelled as integer day numbers; `datetime.now()`
  becomes an explicit `now : ℤ` parameter; `timedelta(days = k)` is `k`.
  Rendering a date with `strftime` is abstracted as rendering its day number.
- Python `dict` parameters are modelled as association lists (`List (k × v)`)
  read through `List.lookup`, or as records when the dict is only read
  through `.get` with fixed keys and defaults.
- `Optional`/`None` becomes `Option`; code that can raise becomes
  `Except String`.
- Python `round(x, 2)` (round-half-to-even) is `round2`.
-/

/-! ## src/core/utils.py -/

/-- Round-half-to-even to an integer, the rounding used by Python `round`. -/
def roundHalfEven (x : ℚ) : ℤ :=
  let f := ⌊x⌋
  let r := x - f
  if r < 1/2 then f
  else if 1/2 < r then f + 1
  else if f % 2 = 0 then f else f + 1

/-- Python `round(x, 2)`. -/
def round2 (x : ℚ) : ℚ := (roundHalfEven (x * 100) : ℚ) / 100

/-- `normalize_score` from src/core/utils.py: linear map into [0, scale],
clamped at both ends; returns 0 when `max_val == min_val`. -/
def normalize_score (value min_val max_val scale : ℚ) : ℚ :=
  if max_val = min_val then 0
  else max 0 (min scale ((value - min_val) / (max_val - min_val) * scale))

/-- `weighted_score` from src/core/utils.py: sum of `component * weight`
over components whose key occurs in the weight table, rounded to 2 decimals. -/
def weighted_score (components : List (String × ℚ)) (weights : List (String × ℚ)) : ℚ :=
  round2 (components.foldl (fun total kv =>
    match weights.lookup kv.1 with
    | some w => total + kv.2 * w
    | none => total) 0)

/-- `calculate_position_size` helper: format a rational with Python `:.0f`. -/
def fmt0 (q : ℚ) : String := toString (roundHalfEven q)

/-- Format a rational with Python `:.2f`. -/
def fmt2 (q : ℚ) : String :=
  let n := roundHalfEven (q * 100)
  let a := n.natAbs
  (if n < 0 then "-" else "") ++ toString (a / 100) ++ "." ++
    (if a % 100 < 10 then "0" else "") ++ toString (a % 100)

/-- Substring test on `List Char` (Python `sub in s`). -/
def listContainsSub (pat : List Char) : List Char → Bool
  | [] => pat.isEmpty
  | c :: rest => pat.isPrefixOf (c :: rest) || listContainsSub pat rest

/-- Python substring containment `sub in s`. -/
def strContainsSub (s sub : String) : Bool := listContainsSub sub.data s.data

/-- Python `str.lower` (ASCII case folding suffices for the names used). -/
def strLower (s : String) : String := ⟨s.data.map Char.toLower⟩

/-- `calculate_position_size` from src/core/utils.py. -/
def calculate_position_size (conviction : ℚ) (risk_level : String) : String :=
  let base_size : ℚ := 2/100
  let max_size : ℚ := 5/100
  let adjusted_size := base_size + conviction * (max_size - base_size)
  let risk_multipliers : List (String × ℚ) :=
    [("Low", 1), ("Medium", 8/10), ("High", 6/10), ("Very High", 4/10)]
  let final_size := adjusted_size * ((risk_multipliers.lookup risk_level).getD (8/10))
  let lower := max (1/100) (final_size - 1/100)
  let upper := min max_size (final_size + 1/100)
  fmt0 (lower * 100) ++ "-" ++ fmt0 (upper * 100) ++ "% portfolio"

/-! ## src/core/schemas.py -/

inductive Sector
  | AI_INFRA | DATA_INFRA | SEMICONDUCTORS | CYBERSECURITY
  | QUANTUM | SIX_G | GREEN_ENERGY | BIOTECH_INFRA
  deriving DecidableEq

/-- The string value of each `Sector` enum member. -/
def Sector.value : Sector → String
  | .AI_INFRA => "AI_Infra"
  | .DATA_INFRA => "Data_Infra"
  | .SEMICONDUCTORS => "Semiconductors"
  | .CYBERSECURITY => "Cybersecurity"
  | .QUANTUM => "Quantum"
  | .SIX_G => "6G"
  | .GREEN_ENERGY => "Green_Energy"
  | .BIOTECH_INFRA => "Biotech_Infra"

inductive WaveCategory
  | WAVE_1 | WAVE_2 | WAVE_3 | WAVE_4
  deriving DecidableEq

inductive DivergenceFlag
  | CONFIRMED_MOMENTUM | MISPRICED_OPPORTUNITY | BUBBLE_RISK | NO_SIGNAL
  deriving DecidableEq

inductive TradeRecommendation
  | STRONG_BUY | BUY | HOLD | SELL | SHORT | FADE
  deriving DecidableEq

structure FundingRound where
  date : ℤ
  amount : ℚ
  lead_investor : String
  valuation : Option ℚ
  round_type : String
  deriving DecidableEq

structure PatentGrant where
  grant_date : ℤ
  patent_id : String
  title : String
  citation_count : ℤ
  technology_cluster : String
  forward_citations : ℤ
  deriving DecidableEq

structure ExecutiveHire where
  date : ℤ
  role : String
  name : String
  previous_company : String
  is_ipo_signal : Bool
  deriving DecidableEq

structure PublicProxy where
  ticker : String
  exposure_type : String
  correlation_score : ℚ
  revenue_exposure_pct : Option ℚ
  deriving DecidableEq

structure Company where
  company_id : String
  name : String
  sector : Sector
  wave_category : WaveCategory
  bottleneck_solved : String
  funding_rounds : List FundingRound
  total_funding : ℚ
  last_valuation : Option ℚ
  patent_grants : List PatentGrant
  patent_count : ℤ
  executive_hires : List ExecutiveHire
  employee_count : ℤ
  engineer_pct : ℚ
  faang_talent_pct : ℚ
  public_proxies : List PublicProxy
  fortune_500_customers : ℤ
  estimated_arr : Option ℚ
  ipo_probability_6mo : ℚ
  ipo_probability_12mo : ℚ
  expected_ipo_date : Option ℤ
  founded_date : ℤ
  headquarters : String
  website : String
  last_updated : ℤ
  deriving DecidableEq

structure MomentumScore where
  company_id : String
  company_name : String
  media_velocity : ℚ
  social_signal : ℚ
  vc_buzz : ℚ
  conference_presence : ℚ
  search_trends : ℚ
  hype_score : ℚ
  revenue_indicators : ℚ
  customer_logos : ℚ
  patent_velocity : ℚ
  talent_density : ℚ
  product_milestones : ℚ
  build_score : ℚ
  momentum_score : ℚ
  momentum_change_7d : ℚ
  momentum_change_30d : ℚ
  divergence_flag : DivergenceFlag
  timestamp : ℤ
  deriving DecidableEq

structure MoatScore where
  company_id : String
  company_name : String
  regulatory_moat : ℚ
  network_effects : ℚ
  capital_intensity : ℚ
  data_moat : ℚ
  switching_costs : ℚ
  total_moat_score : ℚ
  wave_potential : WaveCategory
  durability_rating : String
  timestamp : ℤ
  deriving DecidableEq

structure Catalyst where
  catalyst_type : String
  estimated_date : ℤ
  confidence : ℚ
  probability_6mo : ℚ
  probability_12mo : ℚ
  leading_indicators : List String
  risk_factors : List String
  deriving DecidableEq

structure SecondOrderPlay where
  primary_technology : String
  primary_momentum_score : ℚ
  supplier_company : String
  supplier_ticker : Option String
  exposure_type : String
  dependency_score : ℚ
  price_correlation : ℚ
  thesis : String
  entry_timing : String
  risk_adjusted_return : String
  timestamp : ℤ
  deriving DecidableEq

structure TradeSignal where
  rank : ℤ
  company : String
  company_id : String
  sector : Sector
  momentum_score : ℚ
  momentum_change_7d : ℚ
  hype_score : ℚ
  build_score : ℚ
  moat_score : ℚ
  public_proxy : Option String
  pre_ipo_access : Option String
  synthetic_exposure : Option String
  recommendation : TradeRecommendation
  conviction : ℚ
  position_size : String
  entry_price : Option ℚ
  stop_loss : Option ℚ
  next_catalyst : Option String
  catalyst_date : Option ℤ
  entry_timing : String
  risk_factors : List String
  expected_return : Option String
  time_horizon : String
  generated_date : ℤ
  deriving DecidableEq

/-! ## src/core/config.py (the parts the pipeline reads) -/

def HYPE_WEIGHTS : List (String × ℚ) :=
  [("media_velocity", 25/100), ("social_signal", 20/100), ("vc_buzz", 30/100),
   ("conference_presence", 15/100), ("search_trends", 10/100)]

def BUILD_WEIGHTS : List (String × ℚ) :=
  [("revenue_indicators", 30/100), ("customer_logos", 25/100), ("patent_velocity", 15/100),
   ("talent_density", 20/100), ("product_milestones", 10/100)]

def MOMENTUM_COMPOSITE_WEIGHTS : List (String × ℚ) := [("hype", 40/100), ("build", 60/100)]

def MOAT_WEIGHTS : List (String × ℚ) :=
  [("regulatory_moat", 30/100), ("network_effects", 25/100), ("capital_intensity", 20/100),
   ("data_moat", 15/100), ("switching_costs", 10/100)]

def HIGH_SCORE_THRESHOLD : ℚ := 65
def LOW_SCORE_THRESHOLD : ℚ := 45
def WAVE_4_MOAT_THRESHOLD : ℚ := 75
def STRONG_MOAT : ℚ := 60
def MEDIUM_MOAT : ℚ := 40
def LOW_CORRELATION : ℚ := 40/100
def HIGH_DEPENDENCY : ℚ := 70/100

/-! ## src/modules/momentum_scoring.py -/

/-- One media mention; `m.get("date", datetime.min)` is modelled by the day
number itself (an absent date is an arbitrarily old day number). -/
structure MediaMention where
  date : ℤ
  deriving DecidableEq

/-- Social metrics dict read through `.get(key, 0)`. -/
structure SocialMetrics where
  linkedin_growth_rate : ℚ
  twitter_engagement : ℚ
  deriving DecidableEq

/-- Google-Trends dict read through `.get(key, 0)`. -/
structure SearchData where
  current_interest : ℚ
  previous_interest : ℚ
  deriving DecidableEq

namespace MomentumScoringEngine

/-- `_score_media_velocity`. -/
def _score_media_velocity (now : ℤ) (media_mentions : Option (List MediaMention)) : ℚ :=
  match media_mentions with
  | none => 20
  | some mentions =>
    if mentions.isEmpty then 20
    else
      let thirty_days_ago := now - 30
      let recent_mentions := mentions.filter (fun m => thirty_days_ago < m.date)
      normalize_score (recent_mentions.length : ℚ) 0 50 100

/-- `_score_social_signal`. -/
def _score_social_signal (social_metrics : Option SocialMetrics) : ℚ :=
  match social_metrics with
  | none => 25
  | some sm =>
    let linkedin_score := normalize_score sm.linkedin_growth_rate 0 20 50
    let twitter_score := normalize_score sm.twitter_engagement 0 10 50
    linkedin_score + twitter_score

def tier_1_vcs : List String :=
  ["Andreessen Horowitz", "Sequoia Capital", "Benchmark", "Lightspeed",
   "Accel", "Greylock", "Kleiner Perkins", "Index Ventures"]

/-- `_score_vc_buzz`. -/
def _score_vc_buzz (now : ℤ) (vc_mentions : Option (List String))
    (funding_rounds : List FundingRound) : ℚ :=
  let score : ℚ :=
    match vc_mentions with
    | some l => if l.isEmpty then 0 else normalize_score (l.length : ℚ) 0 10 40
    | none => 0
  let has_tier_1 := funding_rounds.any (fun round =>
    tier_1_vcs.any (fun vc => strContainsSub round.lead_investor vc))
  let score := if has_tier_1 then score + 30 else score
  let six_months_ago := now - 180
  let recent_funding := funding_rounds.any (fun round => six_months_ago < round.date)
  let score := if recent_funding then score + 30 else score
  min score 100

/-- `_score_conference_presence`. -/
def _score_conference_presence (company : Company) : ℚ :=
  let total_funding := company.total_funding
  if total_funding > 500000000 then 80
  else if total_funding > 200000000 then 60
  else if total_funding > 100000000 then 40
  else if total_funding > 50000000 then 25
  else 10

/-- `_score_search_trends`. -/
def _score_search_trends (search_data : Option SearchData) : ℚ :=
  match search_data with
  | none => 20
  | some sd =>
    if sd.previous_interest > 0 then
      let growth := (sd.current_interest - sd.previous_interest) / sd.previous_interest
      normalize_score growth (-(1/2)) (1/2) 100
    else
      normalize_score sd.current_interest 0 100 100

/-- `_score_revenue_indicators`. `if not company.estimated_arr` is falsy both
for `None` and for an ARR of exactly 0. -/
def _score_revenue_indicators (company : Company) : ℚ :=
  if company.estimated_arr.getD 0 = 0 then
    if company.total_funding > 500000000 then 70
    else if company.total_funding > 200000000 then 50
    else 30
  else
    let arr := company.estimated_arr.getD 0
    if arr > 500000000 then 95
    else if arr > 200000000 then 85
    else if arr > 100000000 then 75
    else if arr > 50000000 then 60
    else if arr > 20000000 then 45
    else 25

/-- `_score_customer_logos`. -/
def _score_customer_logos (company : Company) : ℚ :=
  normalize_score (company.fortune_500_customers : ℚ) 0 100 100

/-- `_score_patent_velocity`. -/
def _score_patent_velocity (now : ℤ) (patent_grants : List PatentGrant) : ℚ :=
  if patent_grants.isEmpty then 15
  else
    let one_year_ago := now - 365
    let recent_grants := patent_grants.filter (fun p => one_year_ago < p.grant_date)
    let weighted_count := recent_grants.foldl
      (fun acc patent => acc + (1 + (patent.citation_count : ℚ) * (1/10))) 0
    let quarterly_rate := weighted_count / 4
    normalize_score quarterly_rate 0 10 100

/-- `_score_talent_density`. -/
def _score_talent_density (company : Company) : ℚ :=
  let score : ℚ :=
    if company.employee_count > 5000 then 30
    else if company.employee_count > 2000 then 25
    else if company.employee_count > 1000 then 20
    else if company.employee_count > 500 then 15
    else if company.employee_count > 200 then 10
    else 0
  let engineer_score := normalize_score company.engineer_pct 0 70 35
  let score := score + engineer_score
  let faang_score := normalize_score company.faang_talent_pct 0 30 35
  let score := score + faang_score
  min score 100

/-- `_score_product_milestones`. -/
def _score_product_milestones (company : Company) : ℚ :=
  let base_score : ℚ := 20
  let base_score :=
    if company.fortune_500_customers > 50 then base_score + 40
    else if company.fortune_500_customers > 20 then base_score + 30
    else if company.fortune_500_customers > 10 then base_score + 20
    else base_score
  let base_score :=
    if company.total_funding > 500000000 then base_score + 40
    else if company.total_funding > 200000000 then base_score + 30
    else if company.total_funding > 100000000 then base_score + 20
    else base_score
  min base_score 100

/-- `_detect_divergence`. -/
def _detect_divergence (hype_score build_score : ℚ) : DivergenceFlag :=
  if hype_score ≥ HIGH_SCORE_THRESHOLD ∧ build_score ≥ HIGH_SCORE_THRESHOLD then
    .CONFIRMED_MOMENTUM
  else if hype_score < LOW_SCORE_THRESHOLD ∧ build_score ≥ HIGH_SCORE_THRESHOLD then
    .MISPRICED_OPPORTUNITY
  else if hype_score ≥ HIGH_SCORE_THRESHOLD ∧ build_score < LOW_SCORE_THRESHOLD then
    .BUBBLE_RISK
  else
    .NO_SIGNAL

/-- `calculate_momentum_score`. -/
def calculate_momentum_score (now : ℤ) (company : Company)
    (media_mentions : Option (List MediaMention) := none)
    (social_metrics : Option SocialMetrics := none)
    (vc_mentions : Option (List String) := none)
    (search_data : Option SearchData := none) : MomentumScore :=
  let media_velocity := _score_media_velocity now media_mentions
  let social_signal := _score_social_signal social_metrics
  let vc_buzz := _score_vc_buzz now vc_mentions company.funding_rounds
  let conference_presence := _score_conference_presence company
  let search_trends := _score_search_trends search_data
  let revenue_indicators := _score_revenue_indicators company
  let customer_logos := _score_customer_logos company
  let patent_velocity := _score_patent_velocity now company.patent_grants
  let talent_density := _score_talent_density company
  let product_milestones := _score_product_milestones company
  let hype_score := weighted_score
    [("media_velocity", media_velocity), ("social_signal", social_signal),
     ("vc_buzz", vc_buzz), ("conference_presence", conference_presence),
     ("search_trends", search_trends)] HYPE_WEIGHTS
  let build_score := weighted_score
    [("revenue_indicators", revenue_indicators), ("customer_logos", customer_logos),
     ("patent_velocity", patent_velocity), ("talent_density", talent_density),
     ("product_milestones", product_milestones)] BUILD_WEIGHTS
  let momentum_score := weighted_score
    [("hype", hype_score), ("build", build_score)] MOMENTUM_COMPOSITE_WEIGHTS
  let divergence_flag := _detect_divergence hype_score build_score
  { company_id := company.company_id
    company_name := company.name
    media_velocity, social_signal, vc_buzz, conference_presence, search_trends
    hype_score
    revenue_indicators, customer_logos, patent_velocity, talent_density, product_milestones
    build_score
    momentum_score
    momentum_change_7d := 0
    momentum_change_30d := 0
    divergence_flag
    timestamp := now }

/-- The per-company bundle found in the `external_data` dict of
`score_companies`; each field is read through `.get` with default `None`. -/
structure ExtData where
  media_mentions : Option (List MediaMention)
  social_metrics : Option SocialMetrics
  vc_mentions : Option (List String)
  search_data : Option SearchData
  deriving DecidableEq

def ExtData.empty : ExtData := ⟨none, none, none, none⟩

/-- `score_companies`: score each company in order, then sort the result
descending by `momentum_score` (Python `list.sort` is stable). -/
def score_companies (now : ℤ) (companies : List Company)
    (external_data : Option (List (String × ExtData)) := none) : List MomentumScore :=
  let scores := companies.map (fun company =>
    let ext_data := match external_data with
      | some ed => (ed.lookup company.company_id).getD ExtData.empty
      | none => ExtData.empty
    calculate_momentum_score now company ext_data.media_mentions ext_data.social_metrics
      ext_data.vc_mentions ext_data.search_data)
  scores.mergeSort (fun a b => decide (b.momentum_score ≤ a.momentum_score))

end MomentumScoringEngine

/-! ## src/modules/moat_scoring.py -/

/-- The `industry_data` dict, read through `.get` with defaults
(`False`, `False`, `[]`); `None` is modelled by the all-default record. -/
structure IndustryData where
  has_defense_contracts : Bool
  has_government_customers : Bool
  regulatory_approvals : List String
  deriving DecidableEq

def IndustryData.empty : IndustryData := ⟨false, false, []⟩

namespace MoatScoringEngine

/-- `_score_regulatory_moat` (the sector table lists all eight sectors, so the
dict default 20.0 is never taken; the match is total over `Sector`). -/
def _score_regulatory_moat (company : Company) (industry_data : IndustryData) : ℚ :=
  let score : ℚ :=
    match company.sector with
    | .SIX_G => 85
    | .QUANTUM => 80
    | .GREEN_ENERGY => 75
    | .BIOTECH_INFRA => 70
    | .CYBERSECURITY => 60
    | .SEMICONDUCTORS => 55
    | .AI_INFRA => 30
    | .DATA_INFRA => 25
  let score :=
    if industry_data.has_defense_contracts then score + 15
    else if industry_data.has_government_customers then score + 8
    else score
  let approvals := industry_data.regulatory_approvals
  let score :=
    if approvals.isEmpty then score
    else score + min ((approvals.length : ℚ) * 3) 15
  min score 100

/-- `_score_network_effects`. -/
def _score_network_effects (company : Company) : ℚ :=
  let score : ℚ := 20
  let customer_score := normalize_score (company.fortune_500_customers : ℚ) 0 100 35
  let score := score + customer_score
  let sector_bonus : ℚ :=
    match company.sector with
    | .DATA_INFRA => 25
    | .AI_INFRA => 20
    | .BIOTECH_INFRA => 15
    | .CYBERSECURITY => 15
    | .SEMICONDUCTORS => 10
    | .GREEN_ENERGY => 5
    | .QUANTUM => 10
    | .SIX_G => 15
  let score := score + sector_bonus
  let score :=
    if company.total_funding > 500000000 then score + 20
    else if company.total_funding > 200000000 then score + 15
    else if company.total_funding > 100000000 then score + 10
    else score
  min score 100

/-- `_score_capital_intensity`. -/
def _score_capital_intensity (company : Company) : ℚ :=
  let base_score : ℚ :=
    match company.sector with
    | .SEMICONDUCTORS => 95
    | .QUANTUM => 90
    | .SIX_G => 85
    | .GREEN_ENERGY => 80
    | .AI_INFRA => 75
    | .BIOTECH_INFRA => 50
    | .CYBERSECURITY => 25
    | .DATA_INFRA => 30
  let funding_boost := normalize_score company.total_funding 0 1000000000 15
  min (base_score + funding_boost) 100

/-- `_score_data_moat`. -/
def _score_data_moat (company : Company) : ℚ :=
  let score : ℚ := 15
  let sector_bonus : ℚ :=
    match company.sector with
    | .AI_INFRA => 30
    | .DATA_INFRA => 25
    | .BIOTECH_INFRA => 25
    | .CYBERSECURITY => 20
    | .SIX_G => 15
    | .GREEN_ENERGY => 10
    | .SEMICONDUCTORS => 20
    | .QUANTUM => 15
  let score := score + sector_bonus
  let customer_boost := normalize_score (company.fortune_500_customers : ℚ) 0 100 25
  let score := score + customer_boost
  let patent_boost := normalize_score (company.patent_count : ℚ) 0 100 20
  let score := score + patent_boost
  min score 100

/-- `_score_switching_costs`. -/
def _score_switching_costs (company : Company) : ℚ :=
  let score : ℚ := 20
  let sector_bonus : ℚ :=
    match company.sector with
    | .DATA_INFRA => 30
    | .CYBERSECURITY => 25
    | .AI_INFRA => 20
    | .BIOTECH_INFRA => 25
    | .SEMICONDUCTORS => 30
    | .GREEN_ENERGY => 20
    | .QUANTUM => 15
    | .SIX_G => 25
  let score := score + sector_bonus
  let customer_boost := normalize_score (company.fortune_500_customers : ℚ) 0 100 30
  let score := score + customer_boost
  let score :=
    if company.total_funding > 300000000 then score + 25
    else if company.total_funding > 150000000 then score + 15
    else if company.total_funding > 75000000 then score + 10
    else score
  min score 100

/-- `_classify_wave_potential`. -/
def _classify_wave_potential (moat_score : ℚ) (company : Company) : WaveCategory :=
  if moat_score ≥ WAVE_4_MOAT_THRESHOLD then .WAVE_4
  else if moat_score ≥ STRONG_MOAT then .WAVE_3
  else if moat_score ≥ MEDIUM_MOAT then .WAVE_2
  else company.wave_category

/-- `_classify_durability`. -/
def _classify_durability (moat_score : ℚ) : String :=
  if moat_score ≥ 80 then "Very High"
  else if moat_score ≥ 60 then "High"
  else if moat_score ≥ 40 then "Medium"
  else "Low"

/-- `calculate_moat_score`. -/
def calculate_moat_score (now : ℤ) (company : Company)
    (industry_data : IndustryData := IndustryData.empty) : MoatScore :=
  let regulatory_moat := _score_regulatory_moat company industry_data
  let network_effects := _score_network_effects company
  let capital_intensity := _score_capital_intensity company
  let data_moat := _score_data_moat company
  let switching_costs := _score_switching_costs company
  let total_moat_score := weighted_score
    [("regulatory_moat", regulatory_moat), ("network_effects", network_effects),
     ("capital_intensity", capital_intensity), ("data_moat", data_moat),
     ("switching_costs", switching_costs)] MOAT_WEIGHTS
  let wave_potential := _classify_wave_potential total_moat_score company
  let durability_rating := _classify_durability total_moat_score
  { company_id := company.company_id
    company_name := company.name
    regulatory_moat, network_effects, capital_intensity, data_moat, switching_costs
    total_moat_score
    wave_potential
    durability_rating
    timestamp := now }

/-- `score_companies`: score each company in order, then sort the result
descending by `total_moat_score` (Python `list.sort` is stable). -/
def score_companies (now : ℤ) (companies : List Company)
    (industry_data_map : List (String × IndustryData) := []) : List MoatScore :=
  let scores := companies.map (fun company =>
    let industry_data := (industry_data_map.lookup company.company_id).getD IndustryData.empty
    calculate_moat_score now company industry_data)
  scores.mergeSort (fun a b => decide (b.total_moat_score ≤ a.total_moat_score))

end MoatScoringEngine

/-! ## src/modules/timing_prediction.py (the function the claims touch) -/

namespace TimingPredictionEngine

/-- `predict_ma_timing`. -/
def predict_ma_timing (now : ℤ) (company : Company) : Option Catalyst :=
  if company.total_funding < 100000000 then none
  else if company.total_funding > 500000000 then none
  else
    let ma_prob : ℚ := 35/100
    let high_ma_sectors : List String := ["Cybersecurity", "Data_Infra", "Biotech_Infra"]
    let ma_prob := if high_ma_sectors.contains company.sector.value then ma_prob + 15/100 else ma_prob
    let estimated_date := now + 540
    some
      { catalyst_type := "M&A Exit Potential"
        estimated_date
        confidence := ma_prob
        probability_6mo := 10/100
        probability_12mo := 25/100
        leading_indicators :=
          ["Strategic buyer interest in sector", "Competitive consolidation pressure"]
        risk_factors := ["Market multiples compression", "Antitrust scrutiny"] }

end TimingPredictionEngine

/-! ## src/modules/second_order_arbitrage.py -/

structure Supplier where
  name : String
  ticker : Option String
  dependency : ℚ
  deriving DecidableEq

structure DepCategory where
  category : String
  suppliers : List Supplier
  thesis : String
  deriving DecidableEq

namespace SecondOrderArbitrageEngine

/-- `self.dependency_map`; a sector with no entry in the Python dict
(`Biotech_Infra`) is modelled by the empty list, which makes the
`if sector in self.dependency_map` guard equivalent to mapping over it. -/
def dependency_map : Sector → List DepCategory
  | .AI_INFRA =>
    [{ category := "Datacenter Cooling"
       suppliers := [⟨"Vertiv (VRT)", some "VRT", 87/100⟩, ⟨"nVent Electric (NVT)", some "NVT", 72/100⟩]
       thesis := "AI datacenter buildout requires 3x cooling capacity for GPU clusters" },
     { category := "Power Infrastructure"
       suppliers := [⟨"Eaton (ETN)", some "ETN", 78/100⟩, ⟨"Schneider Electric (SBGSY)", some "SBGSY", 75/100⟩]
       thesis := "AI compute demands robust UPS and power distribution systems" },
     { category := "Networking Equipment"
       suppliers := [⟨"Arista Networks (ANET)", some "ANET", 91/100⟩, ⟨"Juniper Networks (JNPR)", some "JNPR", 68/100⟩]
       thesis := "GPU cluster interconnects require high-bandwidth networking" }]
  | .SIX_G =>
    [{ category := "RF Components"
       suppliers := [⟨"Qorvo (QRVO)", some "QRVO", 85/100⟩, ⟨"Skyworks Solutions (SWKS)", some "SWKS", 82/100⟩]
       thesis := "6G and satellite mesh require advanced RF filtering and amplification" },
     { category := "Fiber Optics"
       suppliers := [⟨"Corning (GLW)", some "GLW", 79/100⟩, ⟨"Lumentum (LITE)", some "LITE", 71/100⟩]
       thesis := "Backhaul infrastructure for 6G requires massive fiber deployment" }]
  | .QUANTUM =>
    [{ category := "Cryogenic Systems"
       suppliers := [⟨"BlueFors (Private)", none, 92/100⟩, ⟨"Oxford Instruments (OXIG.L)", some "OXIG.L", 73/100⟩]
       thesis := "Quantum computers require dilution refrigerators at millikelvin temperatures" },
     { category := "Control Electronics"
       suppliers := [⟨"Keysight (KEYS)", some "KEYS", 68/100⟩, ⟨"Zurich Instruments (Private)", none, 84/100⟩]
       thesis := "Quantum systems need precision control and measurement electronics" }]
  | .GREEN_ENERGY =>
    [{ category := "Rare Earth Mining"
       suppliers := [⟨"MP Materials (MP)", some "MP", 81/100⟩, ⟨"Lynas Rare Earths (LYSDY)", some "LYSDY", 76/100⟩]
       thesis := "Wind turbines and EV motors require neodymium and dysprosium" },
     { category := "Grid Storage Components"
       suppliers := [⟨"Fluence Energy (FLNC)", some "FLNC", 88/100⟩, ⟨"Enphase Energy (ENPH)", some "ENPH", 79/100⟩]
       thesis := "Renewable intermittency drives massive battery storage deployment" }]
  | .SEMICONDUCTORS =>
    [{ category := "Semiconductor Equipment"
       suppliers := [⟨"ASML (ASML)", some "ASML", 95/100⟩, ⟨"Applied Materials (AMAT)", some "AMAT", 91/100⟩,
                     ⟨"Lam Research (LRCX)", some "LRCX", 89/100⟩]
       thesis := "Chip fab buildout requires advanced lithography and deposition tools" },
     { category := "Materials & Chemicals"
       suppliers := [⟨"Entegris (ENTG)", some "ENTG", 84/100⟩, ⟨"Cabot Microelectronics (CCMP)", some "CCMP", 77/100⟩]
       thesis := "Advanced nodes require specialized chemicals and materials" }]
  | .CYBERSECURITY =>
    [{ category := "Identity Infrastructure"
       suppliers := [⟨"Okta (OKTA)", some "OKTA", 72/100⟩, ⟨"Ping Identity (PING)", some "PING", 68/100⟩]
       thesis := "Zero-trust architectures built on identity as perimeter" }]
  | .DATA_INFRA =>
    [{ category := "Cloud Storage"
       suppliers := [⟨"Pure Storage (PSTG)", some "PSTG", 76/100⟩, ⟨"NetApp (NTAP)", some "NTAP", 71/100⟩]
       thesis := "Data infrastructure growth drives storage infrastructure demand" }]
  | .BIOTECH_INFRA => []

/-- `_infer_sector`: keyword match against the lowered company name. -/
def _infer_sector (company_name : String) : Sector :=
  let name_lower := strLower company_name
  if ["ai", "gpu", "inference", "training", "cerebras", "groq"].any
      (fun kw => strContainsSub name_lower kw) then .AI_INFRA
  else if ["satellite", "6g", "wireless", "ast"].any
      (fun kw => strContainsSub name_lower kw) then .SIX_G
  else if ["quantum", "ionq", "rigetti"].any
      (fun kw => strContainsSub name_lower kw) then .QUANTUM
  else if ["energy", "battery", "solar", "form"].any
      (fun kw => strContainsSub name_lower kw) then .GREEN_ENERGY
  else if ["chip", "semiconductor", "tenstorrent"].any
      (fun kw => strContainsSub name_lower kw) then .SEMICONDUCTORS
  else if ["security", "cyber", "wiz"].any
      (fun kw => strContainsSub name_lower kw) then .CYBERSECURITY
  else if ["data", "databricks", "fivetran"].any
      (fun kw => strContainsSub name_lower kw) then .DATA_INFRA
  else .AI_INFRA

/-- The play built for one ticketed supplier (`continue` on private ones). -/
def _play_for_supplier (now : ℤ) (price_correlations : List (String × ℚ))
    (momentum_score : MomentumScore) (dep_category : DepCategory)
    (supplier : Supplier) : Option SecondOrderPlay :=
  match supplier.ticker with
  | none => none
  | some ticker =>
    let correlation := (price_correlations.lookup ticker).getD (50/100)
    let is_mispriced :=
      supplier.dependency > HIGH_DEPENDENCY ∧ correlation < LOW_CORRELATION
    let entry_timing := if is_mispriced then "Immediate" else "Monitor"
    let risk_return := if is_mispriced then "High" else "Medium"
    some
      { primary_technology := momentum_score.company_name
        primary_momentum_score := momentum_score.momentum_score
        supplier_company := supplier.name
        supplier_ticker := some ticker
        exposure_type := dep_category.category
        dependency_score := supplier.dependency
        price_correlation := correlation
        thesis := dep_category.thesis
        entry_timing
        risk_adjusted_return := risk_return
        timestamp := now }

/-- `find_second_order_plays`. -/
def find_second_order_plays (now : ℤ) (momentum_scores : List MomentumScore)
    (price_correlations : List (String × ℚ) := []) : List SecondOrderPlay :=
  let high_momentum := momentum_scores.filter (fun s => 70 < s.momentum_score)
  let plays := high_momentum.flatMap (fun momentum_score =>
    let sector := _infer_sector momentum_score.company_name
    (dependency_map sector).flatMap (fun dep_category =>
      dep_category.suppliers.filterMap
        (_play_for_supplier now price_correlations momentum_score dep_category)))
  plays.mergeSort (fun a b =>
    decide (b.dependency_score - b.price_correlation ≤ a.dependency_score - a.price_correlation))

end SecondOrderArbitrageEngine

/-! ## src/modules/trade_signals.py -/

namespace TradeSignalGenerator

/-- `_generate_recommendation`. -/
def _generate_recommendation (momentum_score : MomentumScore) (moat_score : MoatScore) :
    TradeRecommendation :=
  if momentum_score.divergence_flag = DivergenceFlag.CONFIRMED_MOMENTUM ∧
      moat_score.total_moat_score > 70 then
    .STRONG_BUY
  else if momentum_score.divergence_flag = DivergenceFlag.MISPRICED_OPPORTUNITY then
    .BUY
  else if momentum_score.momentum_score > 75 ∧ moat_score.total_moat_score > 55 then
    .BUY
  else if momentum_score.divergence_flag = DivergenceFlag.BUBBLE_RISK then
    .FADE
  else if momentum_score.momentum_score > 50 then
    .HOLD
  else
    .SELL

/-- `_calculate_conviction`: conviction level in [0, 1]. -/
def _calculate_conviction (momentum_score : MomentumScore) (moat_score : MoatScore)
    (next_catalyst : Option Catalyst) : ℚ :=
  let momentum_conviction := momentum_score.momentum_score / 100
  let moat_adjustment := (moat_score.total_moat_score - 50) / 500
  let catalyst_boost : ℚ :=
    match next_catalyst with
    | some c => if c.probability_6mo > 50/100 then 10/100 else 0
    | none => 0
  let divergence_adj : ℚ :=
    match momentum_score.divergence_flag with
    | .CONFIRMED_MOMENTUM => 10/100
    | .MISPRICED_OPPORTUNITY => 15/100
    | .BUBBLE_RISK => -(25/100)
    | .NO_SIGNAL => -(10/100)
  let conviction := momentum_conviction + moat_adjustment + catalyst_boost + divergence_adj
  max 0 (min 1 conviction)

/-- Python `max(public_proxies, key=lambda p: p.correlation_score)`:
the first element with maximal key. -/
def _max_by_correlation (best : PublicProxy) : List PublicProxy → PublicProxy
  | [] => best
  | p :: rest =>
    _max_by_correlation (if p.correlation_score > best.correlation_score then p else best) rest

def sector_etfs : List (String × String) :=
  [("AI_Infra", "SKYY (Cloud Computing ETF) or WCLD"),
   ("Semiconductors", "SMH (Semiconductor ETF) or SOXX"),
   ("Cybersecurity", "HACK (Cybersecurity ETF) or CIBR"),
   ("Data_Infra", "SKYY (Cloud Computing ETF)"),
   ("Green_Energy", "ICLN (Clean Energy ETF) or TAN (Solar)"),
   ("6G", "ARKF (Fintech/Telecom) or IYZ (Telecom)"),
   ("Quantum", "QTUM (Quantum Computing ETF)"),
   ("Biotech_Infra", "XBI (Biotech ETF) or IBB")]

/-- `_identify_public_proxy`. -/
def _identify_public_proxy (company : Company) : Option String :=
  match company.public_proxies with
  | [] => some ((sector_etfs.lookup company.sector.value).getD "QQQ (Nasdaq-100)")
  | p :: rest =>
    let best_proxy := _max_by_correlation p rest
    some (best_proxy.ticker ++ " (" ++ best_proxy.exposure_type ++ ", correlation " ++
      fmt2 best_proxy.correlation_score ++ ")")

/-- `_identify_pre_ipo_access`; dividing a `None` valuation raises `TypeError`
in Python, modelled as an `Except` error. -/
def _identify_pre_ipo_access (company : Company) : Except String (Option String) :=
  if company.ipo_probability_12mo > 50/100 then
    if company.total_funding > 300000000 then
      match company.last_valuation with
      | some v =>
        .ok (some ("Secondary market access (Forge/EquityZen), estimated valuation $" ++
          fmt0 (v / 1000000) ++ "M"))
      | none => .error "TypeError"
    else .ok none
  else .ok none

/-- `_generate_synthetic_exposure` (always returns a string). -/
def _generate_synthetic_exposure (company : Company) : String :=
  if company.sector.value = "AI_Infra" then
    "Custom basket: 40% NVDA, 30% AVGO, 20% ANET, 10% VRT (cooling exposure)"
  else if company.sector.value = "Semiconductors" then
    "Custom basket: 30% ASML, 25% AMAT, 25% LRCX, 20% ENTG"
  else if company.sector.value = "6G" then
    "Custom basket: 35% QRVO, 35% SWKS, 30% GLW"
  else if company.sector.value = "Cybersecurity" then
    "HACK ETF or custom basket: 25% PANW, 25% CRWD, 25% ZS, 25% FTNT"
  else if company.sector.value = "Green_Energy" then
    "Custom basket: 40% FLNC, 30% ENPH, 30% MP (rare earths)"
  else
    "QQQ call spreads (tech proxy)"

/-- `_determine_entry_timing`. -/
def _determine_entry_timing (momentum_score : MomentumScore)
    (next_catalyst : Option Catalyst) : String :=
  let first :=
    match next_catalyst with
    | some c =>
      if momentum_score.momentum_score > 75 ∧ c.probability_6mo > 50/100 then
        some "Immediate (catalyst within 6 months)"
      else none
    | none => none
  match first with
  | some s => s
  | none =>
    if momentum_score.divergence_flag = DivergenceFlag.MISPRICED_OPPORTUNITY then
      "Immediate (mispriced execution momentum)"
    else if momentum_score.momentum_score > 75 then
      "Immediate"
    else if momentum_score.momentum_score > 55 then
      "Staged entry (build position over 30-60 days)"
    else
      match next_catalyst with
      | some c => "Wait for catalyst (monitor until " ++ toString c.estimated_date ++ ")"
      | none => "Monitor (no immediate entry)"

def capex_sectors : List String := ["Semiconductors", "Quantum", "6G", "Green_Energy"]

/-- `_assess_risk_level`. -/
def _assess_risk_level (company : Company) (moat_score : MoatScore) : String :=
  if moat_score.total_moat_score > 70 then "Low"
  else if moat_score.total_moat_score > 50 ∧ company.total_funding > 300000000 then "Medium"
  else if capex_sectors.contains company.sector.value then "High"
  else if company.total_funding < 150000000 then "High"
  else "Medium"

/-- `_identify_risk_factors` (conditional appends, in source order). -/
def _identify_risk_factors (company : Company) (momentum_score : MomentumScore)
    (moat_score : MoatScore) : List String :=
  (if momentum_score.divergence_flag = DivergenceFlag.BUBBLE_RISK then
    ["Bubble risk: High hype relative to execution"] else []) ++
  (if moat_score.total_moat_score < 40 then
    ["Weak competitive moat (susceptible to competition)"] else []) ++
  (if company.fortune_500_customers < 10 then
    ["Limited customer diversification"] else []) ++
  (if company.total_funding < 200000000 then
    ["Requires additional funding rounds (dilution risk)"] else []) ++
  (if capex_sectors.contains company.sector.value then
    ["Capital-intensive model (high burn rate)"] else []) ++
  (if company.ipo_probability_12mo > 60/100 then
    ["IPO window dependency (market conditions)"] else []) ++
  (if company.sector.value = "Quantum" then
    ["Technology commercialization timeline uncertain"]
  else if company.sector.value = "Biotech_Infra" then
    ["Regulatory approval timelines"]
  else [])

/-- `_estimate_expected_return`. -/
def _estimate_expected_return (momentum_score : MomentumScore) (moat_score : MoatScore)
    (next_catalyst : Option Catalyst) : String :=
  let catalyst_prob_high : Bool :=
    match next_catalyst with
    | some c => decide (c.probability_6mo > 60/100)
    | none => false
  if momentum_score.momentum_score > 85 ∧ moat_score.total_moat_score > 70 ∧
      catalyst_prob_high then "50-100% (12-18 months)"
  else if momentum_score.momentum_score > 75 ∧ next_catalyst.isSome then
    "30-60% (12 months)"
  else if momentum_score.divergence_flag = DivergenceFlag.MISPRICED_OPPORTUNITY then
    "40-80% (18-24 months, mispricing corrects)"
  else if momentum_score.momentum_score > 60 then
    "20-40% (12-18 months)"
  else
    "10-25% (18-24 months)"

/-- `_determine_time_horizon`. -/
def _determine_time_horizon (now : ℤ) (next_catalyst : Option Catalyst) : String :=
  match next_catalyst with
  | none => "18-36 months (long-term hold)"
  | some c =>
    let days := c.estimated_date - now
    if days < 180 then "3-6 months (near-term catalyst)"
    else if days < 365 then "6-12 months (medium-term)"
    else if days < 730 then "12-24 months (long-term)"
    else "24+ months (very long-term)"

/-- `generate_signal`. -/
def generate_signal (now : ℤ) (rank : ℤ) (company : Company)
    (momentum_score : MomentumScore) (moat_score : MoatScore)
    (next_catalyst : Option Catalyst) : Except String TradeSignal :=
  let recommendation := _generate_recommendation momentum_score moat_score
  let conviction := _calculate_conviction momentum_score moat_score next_catalyst
  let public_proxy := _identify_public_proxy company
  match _identify_pre_ipo_access company with
  | .error e => .error e
  | .ok pre_ipo_access =>
    let synthetic_exposure := _generate_synthetic_exposure company
    let risk_level := _assess_risk_level company moat_score
    let position_size := calculate_position_size conviction risk_level
    let entry_timing := _determine_entry_timing momentum_score next_catalyst
    let risk_factors := _identify_risk_factors company momentum_score moat_score
    let expected_return := _estimate_expected_return momentum_score moat_score next_catalyst
    let time_horizon := _determine_time_horizon now next_catalyst
    .ok
      { rank
        company := company.name
        company_id := company.company_id
        sector := company.sector
        momentum_score := momentum_score.momentum_score
        momentum_change_7d := momentum_score.momentum_change_7d
        hype_score := momentum_score.hype_score
        build_score := momentum_score.build_score
        moat_score := moat_score.total_moat_score
        public_proxy
        pre_ipo_access
        synthetic_exposure := some synthetic_exposure
        recommendation
        conviction
        position_size
        entry_price := none
        stop_loss := none
        next_catalyst := next_catalyst.map Catalyst.catalyst_type
        catalyst_date := next_catalyst.map Catalyst.estimated_date
        entry_timing
        risk_factors
        expected_return := some expected_return
        time_horizon
        generated_date := now }

/-- The loop body of `generate_signals`: index the two score lists at `i`
(an out-of-range index raises `IndexError`), build the signal with
rank `i + 1`, and recurse. -/
def _signals_loop (now : ℤ) (momentum_scores : List MomentumScore)
    (moat_scores : List MoatScore) (catalysts : List (String × Catalyst)) :
    ℕ → List Company → Except String (List TradeSignal)
  | _, [] => .ok []
  | i, company :: rest =>
    match momentum_scores[i]?, moat_scores[i]? with
    | some momentum_score, some moat_score =>
      match generate_signal now ((i : ℤ) + 1) company momentum_score moat_score
          (catalysts.lookup company.company_id) with
      | .error e => .error e
      | .ok signal =>
        match _signals_loop now momentum_scores moat_scores catalysts (i + 1) rest with
        | .error e => .error e
        | .ok more => .ok (signal :: more)
    | _, _ => .error "IndexError"

/-- `for i, signal in enumerate(signals): signal.rank = i + 1`. -/
def _update_ranks (r : ℤ) : List TradeSignal → List TradeSignal
  | [] => []
  | s :: rest => { s with rank := r } :: _update_ranks (r + 1) rest

/-- `generate_signals`: one signal per company (scores fetched by index),
then a stable sort descending by conviction, then ranks reassigned 1..N. -/
def generate_signals (now : ℤ) (companies : List Company)
    (momentum_scores : List MomentumScore) (moat_scores : List MoatScore)
    (catalysts : List (String × Catalyst)) : Except String (List TradeSignal) :=
  match _signals_loop now momentum_scores moat_scores catalysts 0 companies with
  | .error e => .error e
  | .ok signals =>
    .ok (_update_ranks 1 (signals.mergeSort (fun a b => decide (b.conviction ≤ a.conviction))))

end TradeSignalGenerator

/-! ## Specification-side definitions (for refinement claims)

These two definitions follow the words of the specification, to be compared
with the engine functions above. -/

/-- The divergence table as the specification states it
(thresholds high = 65, low = 45; every other pair gives NO_SIGNAL). -/
def divergence_table (hype build : ℚ) : DivergenceFlag :=
  if 65 ≤ hype ∧ 65 ≤ build then .CONFIRMED_MOMENTUM
  else if hype < 45 ∧ 65 ≤ build then .MISPRICED_OPPORTUNITY
  else if 65 ≤ hype ∧ build < 45 then .BUBBLE_RISK
  else .NO_SIGNAL

/-- The conviction formula as the specification states it:
momentum/100 + (moat-50)/500 + catalyst boost + divergence adjustment,
clamped to [0, 1]. -/
def conviction_formula (m : MomentumScore) (t : MoatScore) (c : Option Catalyst) : ℚ :=
  let catalyst_boost : ℚ :=
    match c with
    | some cat => if cat.probability_6mo > 50/100 then 10/100 else 0
    | none => 0
  let divergence_adj : ℚ :=
    match m.divergence_flag with
    | .CONFIRMED_MOMENTUM => 10/100
    | .MISPRICED_OPPORTUNITY => 15/100
    | .BUBBLE_RISK => -(25/100)
    | .NO_SIGNAL => -(10/100)
  max 0 (min 1 (m.momentum_score / 100 + (t.total_moat_score - 50) / 500 +
    catalyst_boost + divergence_adj))

/-! ## Test fixtures (concrete records used by witnesses) -/

def sampleCompany : Company :=
  { company_id := "c1", name := "samplecorp", sector := .AI_INFRA,
    wave_category := .WAVE_1, bottleneck_solved := "", funding_rounds := [],
    total_funding := 0, last_valuation := none, patent_grants := [],
    patent_count := 0, executive_hires := [], employee_count := 0,
    engineer_pct := 0, faang_talent_pct := 0, public_proxies := [],
    fortune_500_customers := 0, estimated_arr := none, ipo_probability_6mo := 0,
    ipo_probability_12mo := 0, expected_ipo_date := none, founded_date := 0,
    headquarters := "", website := "", last_updated := 0 }

def sampleCompany2 : Company := { sampleCompany with company_id := "c2", name := "othercorp" }

def company100M : Company := { sampleCompany with total_funding := 100000000 }

def companyWithProxies : Company :=
  { sampleCompany with public_proxies :=
      [⟨"AAA", "direct", 50/100, none⟩, ⟨"BBB", "supplier", 75/100, none⟩] }

def sampleMomentumScore : MomentumScore :=
  { company_id := "c1", company_name := "samplecorp", media_velocity := 20,
    social_signal := 25, vc_buzz := 0, conference_presence := 10,
    search_trends := 20, hype_score := 50, revenue_indicators := 30,
    customer_logos := 0, patent_velocity := 15, talent_density := 0,
    product_milestones := 20, build_score := 50, momentum_score := 50,
    momentum_change_7d := 0, momentum_change_30d := 0,
    divergence_flag := .NO_SIGNAL, timestamp := 0 }

def sampleMomentumScore2 : MomentumScore :=
  { sampleMomentumScore with
    company_id := "c2", company_name := "othercorp", momentum_score := 60 }

def advMomentumScore : MomentumScore :=
  { sampleMomentumScore with momentum_score := 100, divergence_flag := .BUBBLE_RISK }

def momentum70 : MomentumScore := { sampleMomentumScore with momentum_score := 70 }

def momentum7001 : MomentumScore := { sampleMomentumScore with momentum_score := 7001/100 }

def sampleMoatScore : MoatScore :=
  { company_id := "c1", company_name := "samplecorp", regulatory_moat := 30,
    network_effects := 20, capital_intensity := 30, data_moat := 15,
    switching_costs := 20, total_moat_score := 50, wave_potential := .WAVE_2,
    durability_rating := "Medium", timestamp := 0 }

def sampleMoatScore2 : MoatScore :=
  { sampleMoatScore with
    company_id := "c2", company_name := "othercorp", total_moat_score := 55 }

def advMoatScore : MoatScore := { sampleMoatScore with total_moat_score := 100 }

def junkSignal : TradeSignal :=
  { rank := 0, company := "", company_id := "", sector := .AI_INFRA,
    momentum_score := 0, momentum_change_7d := 0, hype_score := 0,
    build_score := 0, moat_score := 0, public_proxy := none,
    pre_ipo_access := none, synthetic_exposure := none,
    recommendation := .SELL, conviction := 0, position_size := "",
    entry_price := none, stop_loss := none, next_catalyst := none,
    catalyst_date := none, entry_timing := "", risk_factors := [],
    expected_return := none, time_horizon := "", generated_date := 0 }

def sampleSignal : TradeSignal :=
  (TradeSignalGenerator.generate_signal 0 1 sampleCompany sampleMomentumScore
    sampleMoatScore none).toOption.getD junkSignal

def companyBig : Company :=
  { sampleCompany with
    company_id := "c2", name := "othercorp", total_funding := 1000000000 }

def junkCatalyst : Catalyst :=
  { catalyst_type := "", estimated_date := 0, confidence := 0, probability_6mo := 0,
    probability_12mo := 0, leading_indicators := [], risk_factors := [] }

def sampleMACatalyst : Catalyst :=
  (TimingPredictionEngine.predict_ma_timing 0 company100M).getD junkCatalyst

def sampleSignalsOut : List TradeSignal :=
  (TradeSignalGenerator.generate_signals 0 [sampleCompany] [sampleMomentumScore]
    [sampleMoatScore] []).toOption.getD []

/-! ## Helper lemmas -/

theorem roundHalfEven_nonneg {x : ℚ} (h : 0 ≤ x) : 0 ≤ roundHalfEven x := by
  have hf : (0 : ℤ) ≤ ⌊x⌋ := Int.floor_nonneg.mpr h
  unfold roundHalfEven
  dsimp only
  split_ifs <;> omega

theorem roundHalfEven_le_int {x : ℚ} {n : ℤ} (h : x ≤ (n : ℚ)) : roundHalfEven x ≤ n := by
  have hf : ⌊x⌋ ≤ n := by
    have := Int.floor_le_floor h
    simpa using this
  have hfx : (⌊x⌋ : ℚ) ≤ x := Int.floor_le x
  unfold roundHalfEven
  dsimp only
  split_ifs with h1 h2 h3
  · exact hf
  · have hx : (⌊x⌋ : ℚ) < x := by linarith
    have hlt : (⌊x⌋ : ℚ) < (n : ℚ) := lt_of_lt_of_le hx h
    have : ⌊x⌋ < n := by exact_mod_cast hlt
    omega
  · exact hf
  · have hx : (⌊x⌋ : ℚ) < x := by linarith
    have hlt : (⌊x⌋ : ℚ) < (n : ℚ) := lt_of_lt_of_le hx h
    have : ⌊x⌋ < n := by exact_mod_cast hlt
    omega

theorem round2_mem {x : ℚ} (h0 : 0 ≤ x) (h1 : x ≤ 100) :
    0 ≤ round2 x ∧ round2 x ≤ 100 := by
  have hmul0 : 0 ≤ x * 100 := by linarith
  have hmul1 : x * 100 ≤ ((10000 : ℤ) : ℚ) := by push_cast; linarith
  have ha := roundHalfEven_nonneg hmul0
  have hb := roundHalfEven_le_int hmul1
  unfold round2
  constructor
  · apply div_nonneg _ (by norm_num)
    exact_mod_cast ha
  · rw [div_le_iff₀ (by norm_num : (0:ℚ) < 100)]
    have : ((roundHalfEven (x * 100) : ℤ) : ℚ) ≤ ((10000 : ℤ) : ℚ) := by exact_mod_cast hb
    push_cast at this ⊢
    linarith

theorem normalize_score_mem {v a b s : ℚ} (hs : 0 ≤ s) :
    0 ≤ normalize_score v a b s ∧ normalize_score v a b s ≤ s := by
  unfold normalize_score
  split_ifs
  · exact ⟨le_refl 0, hs⟩
  · exact ⟨le_max_left 0 _, max_le hs (min_le_left _ _)⟩

theorem weighted_score_hype_build (h b : ℚ) :
    weighted_score [("hype", h), ("build", b)] MOMENTUM_COMPOSITE_WEIGHTS =
      round2 (h * (40/100) + b * (60/100)) := by
  have e : weighted_score [("hype", h), ("build", b)] MOMENTUM_COMPOSITE_WEIGHTS =
      round2 (0 + h * (40/100) + b * (60/100)) := rfl
  rw [e]
  congr 1
  ring

theorem weighted_score_hype_list (a b c d e : ℚ) :
    weighted_score
      [("media_velocity", a), ("social_signal", b), ("vc_buzz", c),
       ("conference_presence", d), ("search_trends", e)] HYPE_WEIGHTS =
      round2 (0 + a * (25/100) + b * (20/100) + c * (30/100) + d * (15/100) + e * (10/100)) :=
  rfl

theorem weighted_score_build_list (a b c d e : ℚ) :
    weighted_score
      [("revenue_indicators", a), ("customer_logos", b), ("patent_velocity", c),
       ("talent_density", d), ("product_milestones", e)] BUILD_WEIGHTS =
      round2 (0 + a * (30/100) + b * (25/100) + c * (15/100) + d * (20/100) + e * (10/100)) :=
  rfl

theorem weighted_score_moat_list (a b c d e : ℚ) :
    weighted_score
      [("regulatory_moat", a), ("network_effects", b), ("capital_intensity", c),
       ("data_moat", d), ("switching_costs", e)] MOAT_WEIGHTS =
      round2 (0 + a * (30/100) + b * (25/100) + c * (20/100) + d * (15/100) + e * (10/100)) :=
  rfl

/-! ## Claim theorems -/

/-- C3: the divergence flag is a pure function of (hype, build) matching the
spec's table with thresholds high = 65 and low = 45, including the four
stated boundary cases. -/
theorem detect_divergence_table :
    (∀ hype build : ℚ,
      MomentumScoringEngine._detect_divergence hype build = divergence_table hype build) ∧
    MomentumScoringEngine._detect_divergence 65 65 = DivergenceFlag.CONFIRMED_MOMENTUM ∧
    MomentumScoringEngine._detect_divergence (449/10) 65 = DivergenceFlag.MISPRICED_OPPORTUNITY ∧
    MomentumScoringEngine._detect_divergence 65 (449/10) = DivergenceFlag.BUBBLE_RISK ∧
    MomentumScoringEngine._detect_divergence 50 50 = DivergenceFlag.NO_SIGNAL := by
  refine ⟨fun hype build => rfl, ?_, ?_, ?_, ?_⟩ <;>
    norm_num [MomentumScoringEngine._detect_divergence, HIGH_SCORE_THRESHOLD,
      LOW_SCORE_THRESHOLD]

/-- C2: conviction equals the spec's formula (momentum/100 + (moat-50)/500 +
catalyst boost + divergence adjustment, clamped to [0,1]); it always lies in
[0,1]; and the adversarial combination momentum=100, moat=100, BUBBLE_RISK,
no catalyst yields exactly 0.85. -/
theorem calculate_conviction_formula_bounds :
    (∀ (m : MomentumScore) (t : MoatScore) (c : Option Catalyst),
      TradeSignalGenerator._calculate_conviction m t c = conviction_formula m t c) ∧
    (∀ (m : MomentumScore) (t : MoatScore) (c : Option Catalyst),
      0 ≤ TradeSignalGenerator._calculate_conviction m t c ∧
        TradeSignalGenerator._calculate_conviction m t c ≤ 1) ∧
    (∀ (m : MomentumScore) (t : MoatScore),
      m.momentum_score = 100 → t.total_moat_score = 100 →
      m.divergence_flag = DivergenceFlag.BUBBLE_RISK →
      TradeSignalGenerator._calculate_conviction m t none = 85/100) := by
  refine ⟨fun m t c => rfl, fun m t c => ?_, fun m t h1 h2 h3 => ?_⟩
  · unfold TradeSignalGenerator._calculate_conviction
    refine ⟨le_max_left 0 _, max_le (by norm_num) (min_le_left _ _)⟩
  · unfold TradeSignalGenerator._calculate_conviction
    simp only [h1, h2, h3]
    norm_num [max_def, min_def]

/-- C4: the composite momentum score stored in a `MomentumScore` equals
`round2` of `hype_score * 0.40 + build_score * 0.60`, where the hype and
build scores are the composites stored in the same record. -/
theorem momentum_score_composite (now : ℤ) (company : Company)
    (mm : Option (List MediaMention)) (sm : Option SocialMetrics)
    (vm : Option (List String)) (sd : Option SearchData) :
    (MomentumScoringEngine.calculate_momentum_score now company mm sm vm sd).momentum_score =
      round2
        ((MomentumScoringEngine.calculate_momentum_score now company mm sm vm sd).hype_score * (40/100) +
         (MomentumScoringEngine.calculate_momentum_score now company mm sm vm sd).build_score * (60/100)) :=
  weighted_score_hype_build _ _

/-- C7 (amended): `predict_ma_timing` returns a catalyst exactly when
$100M ≤ total_funding ≤ $500M (the lower bound is inclusive, unlike the
claim's strict bound); the returned catalyst has confidence 0.35 plus 0.15
for the three high-M&A sectors, and an estimated date 540 days out. -/
theorem predict_ma_timing_bounds :
    (∀ (now : ℤ) (company : Company),
      (TimingPredictionEngine.predict_ma_timing now company).isSome = true ↔
        100000000 ≤ company.total_funding ∧ company.total_funding ≤ 500000000) ∧
    (∀ (now : ℤ) (company : Company) (cat : Catalyst),
      TimingPredictionEngine.predict_ma_timing now company = some cat →
      cat.confidence = 35/100 +
        (if company.sector = Sector.CYBERSECURITY ∨ company.sector = Sector.DATA_INFRA ∨
            company.sector = Sector.BIOTECH_INFRA then 15/100 else 0) ∧
      cat.estimated_date = now + 540) := by
  constructor
  · intro now company
    unfold TimingPredictionEngine.predict_ma_timing
    split_ifs with h1 h2
    · simp only [Option.isSome_none, Bool.false_eq_true, false_iff]
      rintro ⟨ha, _⟩
      linarith
    · simp only [Option.isSome_none, Bool.false_eq_true, false_iff]
      rintro ⟨_, hb⟩
      linarith
    · simp only [Option.isSome_some, true_iff]
      exact ⟨by linarith, by linarith⟩
  · intro now company cat h
    unfold TimingPredictionEngine.predict_ma_timing at h
    by_cases h1 : company.total_funding < 100000000
    · rw [if_pos h1] at h
      exact absurd h (by simp)
    rw [if_neg h1] at h
    by_cases h2 : company.total_funding > 500000000
    · rw [if_pos h2] at h
      exact absurd h (by simp)
    rw [if_neg h2] at h
    simp only [Option.some.injEq] at h
    subst h
    refine ⟨?_, rfl⟩
    cases hs : company.sector <;>
      simp [hs, Sector.value, List.contains]

theorem max_by_correlation_spec (l : List PublicProxy) : ∀ best : PublicProxy,
    (TradeSignalGenerator._max_by_correlation best l = best ∨
      TradeSignalGenerator._max_by_correlation best l ∈ l) ∧
    best.correlation_score ≤ (TradeSignalGenerator._max_by_correlation best l).correlation_score ∧
    (∀ q ∈ l,
      q.correlation_score ≤ (TradeSignalGenerator._max_by_correlation best l).correlation_score) := by
  induction l with
  | nil =>
    intro best
    exact ⟨Or.inl rfl, le_refl _, by simp⟩
  | cons p rest ih =>
    intro best
    have e : TradeSignalGenerator._max_by_correlation best (p :: rest) =
        TradeSignalGenerator._max_by_correlation
          (if p.correlation_score > best.correlation_score then p else best) rest := rfl
    obtain ⟨hmem, hbest, hall⟩ :=
      ih (if p.correlation_score > best.correlation_score then p else best)
    rw [e]
    refine ⟨?_, ?_, ?_⟩
    · rcases hmem with h | h
      · rw [h]
        split_ifs with hc
        · exact Or.inr (List.mem_cons_self p rest)
        · exact Or.inl rfl
      · exact Or.inr (List.mem_cons_of_mem p h)
    · refine le_trans ?_ hbest
      split_ifs with hc
      · exact le_of_lt hc
      · exact le_refl _
    · intro q hq
      rcases List.mem_cons.mp hq with rfl | hq'
      · refine le_trans ?_ hbest
        split_ifs with hc
        · exact le_refl _
        · exact le_of_not_lt hc
      · exact hall q hq'

/-- C10: `_identify_public_proxy` always returns a non-none string: the
highest-correlation proxy when the company's proxy list is non-empty,
otherwise the sector-ETF fallback (with "QQQ (Nasdaq-100)" as the dict
default); hence every generated trade signal has a non-none `public_proxy`. -/
theorem public_proxy_always_present :
    (∀ company : Company,
      (TradeSignalGenerator._identify_public_proxy company).isSome = true) ∧
    (∀ company : Company, company.public_proxies = [] →
      TradeSignalGenerator._identify_public_proxy company =
        some ((TradeSignalGenerator.sector_etfs.lookup company.sector.value).getD
          "QQQ (Nasdaq-100)")) ∧
    (∀ (company : Company) (p0 : PublicProxy) (rest : List PublicProxy),
      company.public_proxies = p0 :: rest →
      TradeSignalGenerator._max_by_correlation p0 rest ∈ company.public_proxies ∧
      (∀ q ∈ company.public_proxies, q.correlation_score ≤
        (TradeSignalGenerator._max_by_correlation p0 rest).correlation_score) ∧
      TradeSignalGenerator._identify_public_proxy company =
        some ((TradeSignalGenerator._max_by_correlation p0 rest).ticker ++ " (" ++
          (TradeSignalGenerator._max_by_correlation p0 rest).exposure_type ++ ", correlation " ++
          fmt2 (TradeSignalGenerator._max_by_correlation p0 rest).correlation_score ++ ")")) ∧
    (∀ (now rank : ℤ) (company : Company) (m : MomentumScore) (t : MoatScore)
      (cat : Option Catalyst) (s : TradeSignal),
      TradeSignalGenerator.generate_signal now rank company m t cat = Except.ok s →
      s.public_proxy.isSome = true) := by
  have hsome : ∀ company : Company,
      (TradeSignalGenerator._identify_public_proxy company).isSome = true := by
    intro company
    unfold TradeSignalGenerator._identify_public_proxy
    rcases h : company.public_proxies with _ | ⟨p, rest⟩ <;> simp [h]
  refine ⟨hsome, ?_, ?_, ?_⟩
  · intro company h
    unfold TradeSignalGenerator._identify_public_proxy
    rw [h]
  · intro company p0 rest h
    obtain ⟨hmem, hbest, hall⟩ := max_by_correlation_spec rest p0
    refine ⟨?_, ?_, ?_⟩
    · rw [h]
      rcases hmem with h' | h'
      · rw [h']
        exact List.mem_cons_self p0 rest
      · exact List.mem_cons_of_mem p0 h'
    · intro q hq
      rw [h] at hq
      rcases List.mem_cons.mp hq with rfl | hq'
      · exact hbest
      · exact hall q hq'
    · unfold TradeSignalGenerator._identify_public_proxy
      rw [h]
  · intro now rank company m t cat s h
    unfold TradeSignalGenerator.generate_signal at h
    rcases hp : TradeSignalGenerator._identify_pre_ipo_access company with e | pia
    · rw [hp] at h
      exact absurd h (by simp)
    · rw [hp] at h
      simp only [Except.ok.injEq] at h
      subst h
      exact hsome company

theorem normalize_score_mem_of (v a b s : ℚ) (hs : 0 ≤ s) :
    0 ≤ normalize_score v a b s ∧ normalize_score v a b s ≤ s :=
  normalize_score_mem hs

theorem score_media_velocity_mem (now : ℤ) (mm : Option (List MediaMention)) :
    0 ≤ MomentumScoringEngine._score_media_velocity now mm ∧
      MomentumScoringEngine._score_media_velocity now mm ≤ 100 := by
  unfold MomentumScoringEngine._score_media_velocity
  rcases mm with _ | mentions
  · norm_num
  · dsimp only
    split_ifs
    · norm_num
    · exact normalize_score_mem_of _ 0 50 100 (by norm_num)

theorem score_social_signal_mem (sm : Option SocialMetrics) :
    0 ≤ MomentumScoringEngine._score_social_signal sm ∧
      MomentumScoringEngine._score_social_signal sm ≤ 100 := by
  unfold MomentumScoringEngine._score_social_signal
  rcases sm with _ | sm
  · norm_num
  · dsimp only
    obtain ⟨a1, a2⟩ := normalize_score_mem_of sm.linkedin_growth_rate 0 20 50 (by norm_num)
    obtain ⟨b1, b2⟩ := normalize_score_mem_of sm.twitter_engagement 0 10 50 (by norm_num)
    constructor <;> linarith

theorem score_vc_buzz_mem (now : ℤ) (vm : Option (List String))
    (rounds : List FundingRound) :
    0 ≤ MomentumScoringEngine._score_vc_buzz now vm rounds ∧
      MomentumScoringEngine._score_vc_buzz now vm rounds ≤ 100 := by
  unfold MomentumScoringEngine._score_vc_buzz
  rcases vm with _ | l <;> dsimp only
  · constructor
    · refine le_min ?_ (by norm_num)
      split_ifs <;> norm_num
    · exact min_le_right _ _
  · have hB : (0:ℚ) ≤ if l.isEmpty then 0 else normalize_score (l.length : ℚ) 0 10 40 := by
      split_ifs
      · norm_num
      · exact (normalize_score_mem_of _ 0 10 40 (by norm_num)).1
    constructor
    · refine le_min ?_ (by norm_num)
      split_ifs at hB ⊢ <;> linarith
    · exact min_le_right _ _

theorem score_conference_presence_mem (company : Company) :
    0 ≤ MomentumScoringEngine._score_conference_presence company ∧
      MomentumScoringEngine._score_conference_presence company ≤ 100 := by
  unfold MomentumScoringEngine._score_conference_presence
  dsimp only
  split_ifs <;> norm_num

theorem score_search_trends_mem (sd : Option SearchData) :
    0 ≤ MomentumScoringEngine._score_search_trends sd ∧
      MomentumScoringEngine._score_search_trends sd ≤ 100 := by
  unfold MomentumScoringEngine._score_search_trends
  rcases sd with _ | sd
  · norm_num
  · dsimp only
    split_ifs
    · exact normalize_score_mem_of _ (-(1/2)) (1/2) 100 (by norm_num)
    · exact normalize_score_mem_of _ 0 100 100 (by norm_num)

theorem score_revenue_indicators_mem (company : Company) :
    0 ≤ MomentumScoringEngine._score_revenue_indicators company ∧
      MomentumScoringEngine._score_revenue_indicators company ≤ 100 := by
  unfold MomentumScoringEngine._score_revenue_indicators
  dsimp only
  split_ifs <;> norm_num

theorem score_customer_logos_mem (company : Company) :
    0 ≤ MomentumScoringEngine._score_customer_logos company ∧
      MomentumScoringEngine._score_customer_logos company ≤ 100 :=
  normalize_score_mem_of _ 0 100 100 (by norm_num)

theorem score_patent_velocity_mem (now : ℤ) (grants : List PatentGrant) :
    0 ≤ MomentumScoringEngine._score_patent_velocity now grants ∧
      MomentumScoringEngine._score_patent_velocity now grants ≤ 100 := by
  unfold MomentumScoringEngine._score_patent_velocity
  split_ifs
  · norm_num
  · exact normalize_score_mem_of _ 0 10 100 (by norm_num)

theorem score_talent_density_mem (company : Company) :
    0 ≤ MomentumScoringEngine._score_talent_density company ∧
      MomentumScoringEngine._score_talent_density company ≤ 100 := by
  unfold MomentumScoringEngine._score_talent_density
  dsimp only
  have e1 := (normalize_score_mem_of company.engineer_pct 0 70 35 (by norm_num)).1
  have f1 := (normalize_score_mem_of company.faang_talent_pct 0 30 35 (by norm_num)).1
  constructor
  · refine le_min ?_ (by norm_num)
    split_ifs <;> linarith
  · exact min_le_right _ _

theorem score_product_milestones_mem (company : Company) :
    0 ≤ MomentumScoringEngine._score_product_milestones company ∧
      MomentumScoringEngine._score_product_milestones company ≤ 100 := by
  unfold MomentumScoringEngine._score_product_milestones
  dsimp only
  constructor
  · refine le_min ?_ (by norm_num)
    split_ifs <;> norm_num
  · exact min_le_right _ _

theorem hype_composite_mem (a b c d e : ℚ)
    (ha : 0 ≤ a ∧ a ≤ 100) (hb : 0 ≤ b ∧ b ≤ 100) (hc : 0 ≤ c ∧ c ≤ 100)
    (hd : 0 ≤ d ∧ d ≤ 100) (he : 0 ≤ e ∧ e ≤ 100) :
    0 ≤ weighted_score
        [("media_velocity", a), ("social_signal", b), ("vc_buzz", c),
         ("conference_presence", d), ("search_trends", e)] HYPE_WEIGHTS ∧
      weighted_score
        [("media_velocity", a), ("social_signal", b), ("vc_buzz", c),
         ("conference_presence", d), ("search_trends", e)] HYPE_WEIGHTS ≤ 100 := by
  rw [weighted_score_hype_list]
  obtain ⟨ha1, ha2⟩ := ha
  obtain ⟨hb1, hb2⟩ := hb
  obtain ⟨hc1, hc2⟩ := hc
  obtain ⟨hd1, hd2⟩ := hd
  obtain ⟨he1, he2⟩ := he
  exact round2_mem (by linarith) (by linarith)

theorem build_composite_mem (a b c d e : ℚ)
    (ha : 0 ≤ a ∧ a ≤ 100) (hb : 0 ≤ b ∧ b ≤ 100) (hc : 0 ≤ c ∧ c ≤ 100)
    (hd : 0 ≤ d ∧ d ≤ 100) (he : 0 ≤ e ∧ e ≤ 100) :
    0 ≤ weighted_score
        [("revenue_indicators", a), ("customer_logos", b), ("patent_velocity", c),
         ("talent_density", d), ("product_milestones", e)] BUILD_WEIGHTS ∧
      weighted_score
        [("revenue_indicators", a), ("customer_logos", b), ("patent_velocity", c),
         ("talent_density", d), ("product_milestones", e)] BUILD_WEIGHTS ≤ 100 := by
  rw [weighted_score_build_list]
  obtain ⟨ha1, ha2⟩ := ha
  obtain ⟨hb1, hb2⟩ := hb
  obtain ⟨hc1, hc2⟩ := hc
  obtain ⟨hd1, hd2⟩ := hd
  obtain ⟨he1, he2⟩ := he
  exact round2_mem (by linarith) (by linarith)

theorem momentum_composite_mem (h b : ℚ)
    (hh : 0 ≤ h ∧ h ≤ 100) (hb : 0 ≤ b ∧ b ≤ 100) :
    0 ≤ weighted_score [("hype", h), ("build", b)] MOMENTUM_COMPOSITE_WEIGHTS ∧
      weighted_score [("hype", h), ("build", b)] MOMENTUM_COMPOSITE_WEIGHTS ≤ 100 := by
  rw [weighted_score_hype_build]
  obtain ⟨h1, h2⟩ := hh
  obtain ⟨b1, b2⟩ := hb
  exact round2_mem (by linarith) (by linarith)

theorem score_regulatory_moat_mem (company : Company) (ind : IndustryData) :
    0 ≤ MoatScoringEngine._score_regulatory_moat company ind ∧
      MoatScoringEngine._score_regulatory_moat company ind ≤ 100 := by
  unfold MoatScoringEngine._score_regulatory_moat
  dsimp only
  have hbase : (0:ℚ) ≤ (match company.sector with
      | .SIX_G => (85:ℚ) | .QUANTUM => 80 | .GREEN_ENERGY => 75 | .BIOTECH_INFRA => 70
      | .CYBERSECURITY => 60 | .SEMICONDUCTORS => 55 | .AI_INFRA => 30 | .DATA_INFRA => 25) := by
    cases company.sector <;> norm_num
  have happ : (0:ℚ) ≤ min ((ind.regulatory_approvals.length : ℚ) * 3) 15 := by
    refine le_min ?_ (by norm_num)
    positivity
  constructor
  · refine le_min ?_ (by norm_num)
    split_ifs <;> linarith
  · exact min_le_right _ _

theorem score_network_effects_mem (company : Company) :
    0 ≤ MoatScoringEngine._score_network_effects company ∧
      MoatScoringEngine._score_network_effects company ≤ 100 := by
  unfold MoatScoringEngine._score_network_effects
  dsimp only
  have hcust := (normalize_score_mem_of (company.fortune_500_customers : ℚ) 0 100 35
    (by norm_num)).1
  have hsec : (0:ℚ) ≤ (match company.sector with
      | .DATA_INFRA => (25:ℚ) | .AI_INFRA => 20 | .BIOTECH_INFRA => 15 | .CYBERSECURITY => 15
      | .SEMICONDUCTORS => 10 | .GREEN_ENERGY => 5 | .QUANTUM => 10 | .SIX_G => 15) := by
    cases company.sector <;> norm_num
  constructor
  · refine le_min ?_ (by norm_num)
    split_ifs <;> linarith
  · exact min_le_right _ _

theorem score_capital_intensity_mem (company : Company) :
    0 ≤ MoatScoringEngine._score_capital_intensity company ∧
      MoatScoringEngine._score_capital_intensity company ≤ 100 := by
  unfold MoatScoringEngine._score_capital_intensity
  dsimp only
  have hfund := (normalize_score_mem_of company.total_funding 0 1000000000 15 (by norm_num)).1
  have hbase : (0:ℚ) ≤ (match company.sector with
      | .SEMICONDUCTORS => (95:ℚ) | .QUANTUM => 90 | .SIX_G => 85 | .GREEN_ENERGY => 80
      | .AI_INFRA => 75 | .BIOTECH_INFRA => 50 | .CYBERSECURITY => 25 | .DATA_INFRA => 30) := by
    cases company.sector <;> norm_num
  constructor
  · exact le_min (by linarith) (by norm_num)
  · exact min_le_right _ _

theorem score_data_moat_mem (company : Company) :
    0 ≤ MoatScoringEngine._score_data_moat company ∧
      MoatScoringEngine._score_data_moat company ≤ 100 := by
  unfold MoatScoringEngine._score_data_moat
  dsimp only
  have hcust := (normalize_score_mem_of (company.fortune_500_customers : ℚ) 0 100 25
    (by norm_num)).1
  have hpat := (normalize_score_mem_of (company.patent_count : ℚ) 0 100 20 (by norm_num)).1
  have hsec : (0:ℚ) ≤ (match company.sector with
      | .AI_INFRA => (30:ℚ) | .DATA_INFRA => 25 | .BIOTECH_INFRA => 25 | .CYBERSECURITY => 20
      | .SIX_G => 15 | .GREEN_ENERGY => 10 | .SEMICONDUCTORS => 20 | .QUANTUM => 15) := by
    cases company.sector <;> norm_num
  constructor
  · exact le_min (by linarith) (by norm_num)
  · exact min_le_right _ _

theorem score_switching_costs_mem (company : Company) :
    0 ≤ MoatScoringEngine._score_switching_costs company ∧
      MoatScoringEngine._score_switching_costs company ≤ 100 := by
  unfold MoatScoringEngine._score_switching_costs
  dsimp only
  have hcust := (normalize_score_mem_of (company.fortune_500_customers : ℚ) 0 100 30
    (by norm_num)).1
  have hsec : (0:ℚ) ≤ (match company.sector with
      | .DATA_INFRA => (30:ℚ) | .CYBERSECURITY => 25 | .AI_INFRA => 20 | .BIOTECH_INFRA => 25
      | .SEMICONDUCTORS => 30 | .GREEN_ENERGY => 20 | .QUANTUM => 15 | .SIX_G => 25) := by
    cases company.sector <;> norm_num
  constructor
  · refine le_min ?_ (by norm_num)
    split_ifs <;> linarith
  · exact min_le_right _ _

theorem moat_composite_mem (a b c d e : ℚ)
    (ha : 0 ≤ a ∧ a ≤ 100) (hb : 0 ≤ b ∧ b ≤ 100) (hc : 0 ≤ c ∧ c ≤ 100)
    (hd : 0 ≤ d ∧ d ≤ 100) (he : 0 ≤ e ∧ e ≤ 100) :
    0 ≤ weighted_score
        [("regulatory_moat", a), ("network_effects", b), ("capital_intensity", c),
         ("data_moat", d), ("switching_costs", e)] MOAT_WEIGHTS ∧
      weighted_score
        [("regulatory_moat", a), ("network_effects", b), ("capital_intensity", c),
         ("data_moat", d), ("switching_costs", e)] MOAT_WEIGHTS ≤ 100 := by
  rw [weighted_score_moat_list]
  obtain ⟨ha1, ha2⟩ := ha
  obtain ⟨hb1, hb2⟩ := hb
  obtain ⟨hc1, hc2⟩ := hc
  obtain ⟨hd1, hd2⟩ := hd
  obtain ⟨he1, he2⟩ := he
  exact round2_mem (by linarith) (by linarith)

/-- C5: every sub-score and every composite stored in a `MomentumScore`, and
every dimension score and the composite stored in a `MoatScore`, lies in
[0, 100], for all companies and all optional external input. -/
theorem scores_within_bounds :
    (∀ (now : ℤ) (company : Company) (mm : Option (List MediaMention))
        (sm : Option SocialMetrics) (vm : Option (List String)) (sd : Option SearchData),
      let ms := MomentumScoringEngine.calculate_momentum_score now company mm sm vm sd
      (0 ≤ ms.media_velocity ∧ ms.media_velocity ≤ 100) ∧
      (0 ≤ ms.social_signal ∧ ms.social_signal ≤ 100) ∧
      (0 ≤ ms.vc_buzz ∧ ms.vc_buzz ≤ 100) ∧
      (0 ≤ ms.conference_presence ∧ ms.conference_presence ≤ 100) ∧
      (0 ≤ ms.search_trends ∧ ms.search_trends ≤ 100) ∧
      (0 ≤ ms.hype_score ∧ ms.hype_score ≤ 100) ∧
      (0 ≤ ms.revenue_indicators ∧ ms.revenue_indicators ≤ 100) ∧
      (0 ≤ ms.customer_logos ∧ ms.customer_logos ≤ 100) ∧
      (0 ≤ ms.patent_velocity ∧ ms.patent_velocity ≤ 100) ∧
      (0 ≤ ms.talent_density ∧ ms.talent_density ≤ 100) ∧
      (0 ≤ ms.product_milestones ∧ ms.product_milestones ≤ 100) ∧
      (0 ≤ ms.build_score ∧ ms.build_score ≤ 100) ∧
      (0 ≤ ms.momentum_score ∧ ms.momentum_score ≤ 100)) ∧
    (∀ (now : ℤ) (company : Company) (ind : IndustryData),
      let mt := MoatScoringEngine.calculate_moat_score now company ind
      (0 ≤ mt.regulatory_moat ∧ mt.regulatory_moat ≤ 100) ∧
      (0 ≤ mt.network_effects ∧ mt.network_effects ≤ 100) ∧
      (0 ≤ mt.capital_intensity ∧ mt.capital_intensity ≤ 100) ∧
      (0 ≤ mt.data_moat ∧ mt.data_moat ≤ 100) ∧
      (0 ≤ mt.switching_costs ∧ mt.switching_costs ≤ 100) ∧
      (0 ≤ mt.total_moat_score ∧ mt.total_moat_score ≤ 100)) := by
  constructor
  · intro now company mm sm vm sd
    refine ⟨score_media_velocity_mem now mm, score_social_signal_mem sm,
      score_vc_buzz_mem now vm company.funding_rounds,
      score_conference_presence_mem company, score_search_trends_mem sd,
      hype_composite_mem _ _ _ _ _ (score_media_velocity_mem now mm)
        (score_social_signal_mem sm) (score_vc_buzz_mem now vm company.funding_rounds)
        (score_conference_presence_mem company) (score_search_trends_mem sd),
      score_revenue_indicators_mem company, score_customer_logos_mem company,
      score_patent_velocity_mem now company.patent_grants,
      score_talent_density_mem company, score_product_milestones_mem company,
      build_composite_mem _ _ _ _ _ (score_revenue_indicators_mem company)
        (score_customer_logos_mem company) (score_patent_velocity_mem now company.patent_grants)
        (score_talent_density_mem company) (score_product_milestones_mem company),
      momentum_composite_mem _ _
        (hype_composite_mem _ _ _ _ _ (score_media_velocity_mem now mm)
          (score_social_signal_mem sm) (score_vc_buzz_mem now vm company.funding_rounds)
          (score_conference_presence_mem company) (score_search_trends_mem sd))
        (build_composite_mem _ _ _ _ _ (score_revenue_indicators_mem company)
          (score_customer_logos_mem company) (score_patent_velocity_mem now company.patent_grants)
          (score_talent_density_mem company) (score_product_milestones_mem company))⟩
  · intro now company ind
    refine ⟨score_regulatory_moat_mem company ind, score_network_effects_mem company,
      score_capital_intensity_mem company, score_data_moat_mem company,
      score_switching_costs_mem company,
      moat_composite_mem _ _ _ _ _ (score_regulatory_moat_mem company ind)
        (score_network_effects_mem company) (score_capital_intensity_mem company)
        (score_data_moat_mem company) (score_switching_costs_mem company)⟩

theorem infer_sector_ne_biotech (name : String) :
    SecondOrderArbitrageEngine._infer_sector name ≠ Sector.BIOTECH_INFRA := by
  unfold SecondOrderArbitrageEngine._infer_sector
  dsimp only
  split_ifs <;> simp

/-- C8: `find_second_order_plays` ignores every momentum score with composite
at most 70 (the threshold is strict), and any single score above 70
contributes at least one play (every inferred sector has ticketed
dependency-map entries). -/
theorem second_order_strict_threshold :
    (∀ (now : ℤ) (scores : List MomentumScore) (pc : List (String × ℚ)),
      (∀ s ∈ scores, s.momentum_score ≤ 70) →
      SecondOrderArbitrageEngine.find_second_order_plays now scores pc = []) ∧
    (∀ (now : ℤ) (s : MomentumScore) (pc : List (String × ℚ)),
      70 < s.momentum_score →
      SecondOrderArbitrageEngine.find_second_order_plays now [s] pc ≠ []) := by
  constructor
  · intro now scores pc h
    unfold SecondOrderArbitrageEngine.find_second_order_plays
    dsimp only
    have hf : scores.filter (fun s => decide (70 < s.momentum_score)) = [] := by
      rw [List.filter_eq_nil_iff]
      intro s hs
      simp only [decide_eq_true_eq]
      exact not_lt.mpr (h s hs)
    rw [hf]
    simp [List.mergeSort_nil]
  · intro now s pc h70
    unfold SecondOrderArbitrageEngine.find_second_order_plays
    dsimp only
    have hf : [s].filter (fun x => decide (70 < x.momentum_score)) = [s] := by
      simp [h70]
    rw [hf]
    intro hEq
    have hlen := congrArg List.length hEq
    rw [List.length_mergeSort] at hlen
    revert hlen
    rcases hsec : SecondOrderArbitrageEngine._infer_sector s.company_name with
      _ | _ | _ | _ | _ | _ | _ | _ <;>
      simp [SecondOrderArbitrageEngine.dependency_map, hsec,
        SecondOrderArbitrageEngine._play_for_supplier]
    exact infer_sector_ne_biotech s.company_name hsec

theorem list_eq_of_perm_of_map_eq {α β : Type} (f : α → β) {l1 l2 : List α}
    (hp : l1.Perm l2) (hn : (l2.map f).Nodup)
    (hmap : ∀ (i : ℕ) (h1 : i < l1.length) (h2 : i < l2.length), f l1[i] = f l2[i]) :
    l1 = l2 := by
  have hlen := hp.length_eq
  apply List.ext_getElem hlen
  intro i h1 h2
  have hmem : l1[i] ∈ l2 := hp.mem_iff.mp (List.getElem_mem h1)
  obtain ⟨j, hj, hji⟩ := List.mem_iff_getElem.mp hmem
  have hj2 : j < (l2.map f).length := by simpa using hj
  have hi2 : i < (l2.map f).length := by simpa using h2
  have hmapj : (l2.map f)[j] = (l2.map f)[i] := by
    rw [List.getElem_map, List.getElem_map, hji]
    exact hmap i h1 h2
  have hij : j = i := (List.Nodup.getElem_inj_iff hn).mp hmapj
  subst hij
  exact hji.symm

theorem batch_sort_spec {α : Type} (key : α → ℚ) (cid : α → String) (f : Company → α)
    (hcid : ∀ c, cid (f c) = c.company_id) (companies : List Company) :
    ((companies.map f).mergeSort (fun a b => decide (key b ≤ key a))).length =
      companies.length ∧
    List.Pairwise (fun a b => key b ≤ key a)
      ((companies.map f).mergeSort (fun a b => decide (key b ≤ key a))) ∧
    ((companies.map Company.company_id).Nodup →
      (companies.map f).mergeSort (fun a b => decide (key b ≤ key a)) ≠ companies.map f →
      ((companies.map f).mergeSort (fun a b => decide (key b ≤ key a))).map cid ≠
        companies.map Company.company_id) := by
  have htrans : ∀ a b c : α, (fun a b => decide (key b ≤ key a)) a b = true →
      (fun a b => decide (key b ≤ key a)) b c = true →
      (fun a b => decide (key b ≤ key a)) a c = true := by
    intro a b c hab hbc
    simp only [decide_eq_true_eq] at *
    exact le_trans hbc hab
  have htotal : ∀ a b : α, ((fun a b => decide (key b ≤ key a)) a b ||
      (fun a b => decide (key b ≤ key a)) b a) = true := by
    intro a b
    simp only [Bool.or_eq_true, decide_eq_true_eq]
    exact le_total (key b) (key a)
  refine ⟨?_, ?_, ?_⟩
  · rw [List.length_mergeSort, List.length_map]
  · exact (List.sorted_mergeSort htrans htotal (companies.map f)).imp
      (fun h => of_decide_eq_true h)
  · intro hnd hne hmapne
    apply hne
    apply list_eq_of_perm_of_map_eq cid (List.mergeSort_perm (companies.map f) _)
    · have hmapeq : (companies.map f).map cid = companies.map Company.company_id := by
        rw [List.map_map]
        apply List.map_congr_left
        intro c _
        exact hcid c
      rw [hmapeq]
      exact hnd
    · intro i h1 h2
      have h2' : i < companies.length := by simpa using h2
      have hi1 : i <
          (((companies.map f).mergeSort (fun a b => decide (key b ≤ key a))).map cid).length := by
        simpa using h1
      have hi2 : i < (companies.map Company.company_id).length := by simpa using h2'
      have hq := congrArg (fun ll : List String => ll[i]?) hmapne
      simp only at hq
      rw [List.getElem?_eq_getElem hi1, List.getElem?_eq_getElem hi2] at hq
      simp only [Option.some.injEq] at hq
      have hgc := hq
      rw [List.getElem_map, List.getElem_map] at hgc
      rw [List.getElem_map, hcid]
      exact hgc

/-- C9: each batch scorer returns one score per company and sorts its output
descending by the composite (momentum_score / total_moat_score); whenever the
sort actually reorders the per-company score list, the output is no longer
index-aligned with the input company list. -/
theorem batch_scorers_sorted_desc :
    (∀ (now : ℤ) (companies : List Company)
        (ed : Option (List (String × MomentumScoringEngine.ExtData))),
      (MomentumScoringEngine.score_companies now companies ed).length = companies.length ∧
      List.Pairwise (fun a b => b.momentum_score ≤ a.momentum_score)
        (MomentumScoringEngine.score_companies now companies ed) ∧
      ((companies.map Company.company_id).Nodup →
        MomentumScoringEngine.score_companies now companies ed ≠
          companies.map (fun company =>
            MomentumScoringEngine.calculate_momentum_score now company
              (match ed with
                | some ed => (ed.lookup company.company_id).getD MomentumScoringEngine.ExtData.empty
                | none => MomentumScoringEngine.ExtData.empty).media_mentions
              (match ed with
                | some ed => (ed.lookup company.company_id).getD MomentumScoringEngine.ExtData.empty
                | none => MomentumScoringEngine.ExtData.empty).social_metrics
              (match ed with
                | some ed => (ed.lookup company.company_id).getD MomentumScoringEngine.ExtData.empty
                | none => MomentumScoringEngine.ExtData.empty).vc_mentions
              (match ed with
                | some ed => (ed.lookup company.company_id).getD MomentumScoringEngine.ExtData.empty
                | none => MomentumScoringEngine.ExtData.empty).search_data) →
        (MomentumScoringEngine.score_companies now companies ed).map
            MomentumScore.company_id ≠
          companies.map Company.company_id)) ∧
    (∀ (now : ℤ) (companies : List Company)
        (idm : List (String × IndustryData)),
      (MoatScoringEngine.score_companies now companies idm).length = companies.length ∧
      List.Pairwise (fun a b => b.total_moat_score ≤ a.total_moat_score)
        (MoatScoringEngine.score_companies now companies idm) ∧
      ((companies.map Company.company_id).Nodup →
        MoatScoringEngine.score_companies now companies idm ≠
          companies.map (fun company =>
            MoatScoringEngine.calculate_moat_score now company
              ((idm.lookup company.company_id).getD IndustryData.empty)) →
        (MoatScoringEngine.score_companies now companies idm).map
            MoatScore.company_id ≠
          companies.map Company.company_id)) := by
  constructor
  · intro now companies ed
    exact batch_sort_spec MomentumScore.momentum_score MomentumScore.company_id
      (fun company =>
        MomentumScoringEngine.calculate_momentum_score now company
          (match ed with
            | some ed => (ed.lookup company.company_id).getD MomentumScoringEngine.ExtData.empty
            | none => MomentumScoringEngine.ExtData.empty).media_mentions
          (match ed with
            | some ed => (ed.lookup company.company_id).getD MomentumScoringEngine.ExtData.empty
            | none => MomentumScoringEngine.ExtData.empty).social_metrics
          (match ed with
            | some ed => (ed.lookup company.company_id).getD MomentumScoringEngine.ExtData.empty
            | none => MomentumScoringEngine.ExtData.empty).vc_mentions
          (match ed with
            | some ed => (ed.lookup company.company_id).getD MomentumScoringEngine.ExtData.empty
            | none => MomentumScoringEngine.ExtData.empty).search_data)
      (fun c => rfl) companies
  · intro now companies idm
    exact batch_sort_spec MoatScore.total_moat_score MoatScore.company_id
      (fun company =>
        MoatScoringEngine.calculate_moat_score now company
          ((idm.lookup company.company_id).getD IndustryData.empty))
      (fun c => rfl) companies

theorem generate_signal_ok_fields {now rank : ℤ} {company : Company}
    {m : MomentumScore} {t : MoatScore} {cat : Option Catalyst} {s : TradeSignal}
    (h : TradeSignalGenerator.generate_signal now rank company m t cat = Except.ok s) :
    s.rank = rank ∧ s.company_id = company.company_id ∧
    s.conviction = TradeSignalGenerator._calculate_conviction m t cat := by
  unfold TradeSignalGenerator.generate_signal at h
  rcases hp : TradeSignalGenerator._identify_pre_ipo_access company with e | pia
  · rw [hp] at h
    exact absurd h (by simp)
  · rw [hp] at h
    simp only [Except.ok.injEq] at h
    subst h
    exact ⟨rfl, rfl, rfl⟩

theorem signals_loop_ok_spec (now : ℤ) (ms : List MomentumScore) (ts : List MoatScore)
    (cats : List (String × Catalyst)) :
    ∀ (cs : List Company) (i : ℕ) (l : List TradeSignal),
    TradeSignalGenerator._signals_loop now ms ts cats i cs = Except.ok l →
    l.length = cs.length ∧
    (∀ (k : ℕ) (hk : k < l.length) (hk' : k < cs.length),
      l[k].rank = (i : ℤ) + k + 1 ∧ l[k].company_id = cs[k].company_id) ∧
    (∀ k : ℕ, k < cs.length → i + k < ms.length) ∧
    (∀ k : ℕ, k < cs.length → i + k < ts.length) := by
  intro cs
  induction cs with
  | nil =>
    intro i l h
    unfold TradeSignalGenerator._signals_loop at h
    simp only [Except.ok.injEq] at h
    subst h
    refine ⟨rfl, ?_, by simp, by simp⟩
    intro k hk
    exact absurd hk (by simp)
  | cons c rest ih =>
    intro i l h
    unfold TradeSignalGenerator._signals_loop at h
    rcases hm : ms[i]? with _ | m <;> rw [hm] at h
    · exact absurd h (by simp)
    rcases hmt : ts[i]? with _ | t <;> rw [hmt] at h
    · exact absurd h (by simp)
    dsimp only at h
    rcases hg : TradeSignalGenerator.generate_signal now ((i : ℤ) + 1) c m t
        (cats.lookup c.company_id) with e | sig <;> rw [hg] at h
    · exact absurd h (by simp)
    rcases hr : TradeSignalGenerator._signals_loop now ms ts cats (i + 1) rest
        with e | more <;> rw [hr] at h
    · exact absurd h (by simp)
    simp only [Except.ok.injEq] at h
    subst h
    obtain ⟨hlen, helem, hms, hts⟩ := ih (i + 1) more hr
    have hmi : i < ms.length := by
      obtain ⟨hlt, _⟩ := List.getElem?_eq_some.mp hm
      exact hlt
    have hti : i < ts.length := by
      obtain ⟨hlt, _⟩ := List.getElem?_eq_some.mp hmt
      exact hlt
    refine ⟨by simp [hlen], ?_, ?_, ?_⟩
    case refine_2 =>
      intro k hkc
      cases k with
      | zero => simpa using hmi
      | succ k2 =>
        have := hms k2 (by simpa using hkc)
        omega
    case refine_3 =>
      intro k hkc
      cases k with
      | zero => simpa using hti
      | succ k2 =>
        have := hts k2 (by simpa using hkc)
        omega
    intro k hk hk'
    cases k with
    | zero =>
      obtain ⟨hrank, hcid, _⟩ := generate_signal_ok_fields hg
      exact ⟨by simpa using hrank, by simpa using hcid⟩
    | succ k' =>
      have hk2 : k' < more.length := by simpa using hk
      have hk2' : k' < rest.length := by simpa using hk'
      obtain ⟨hrank, hcid⟩ := helem k' hk2 hk2'
      constructor
      · rw [List.getElem_cons_succ]
        rw [hrank]
        push_cast
        ring
      · rw [List.getElem_cons_succ, List.getElem_cons_succ]
        exact hcid

theorem update_ranks_length (l : List TradeSignal) :
    ∀ r : ℤ, (TradeSignalGenerator._update_ranks r l).length = l.length := by
  induction l with
  | nil => intro r; rfl
  | cons s rest ih =>
    intro r
    simp [TradeSignalGenerator._update_ranks, ih]

theorem update_ranks_getElem (l : List TradeSignal) :
    ∀ (r : ℤ) (k : ℕ) (hk : k < (TradeSignalGenerator._update_ranks r l).length)
      (hk' : k < l.length),
    (TradeSignalGenerator._update_ranks r l)[k] = { l[k] with rank := r + k } := by
  induction l with
  | nil =>
    intro r k hk
    exact absurd hk (by simp [TradeSignalGenerator._update_ranks])
  | cons s rest ih =>
    intro r k hk hk'
    cases k with
    | zero => simp [TradeSignalGenerator._update_ranks]
    | succ k' =>
      have hk2 : k' < (TradeSignalGenerator._update_ranks (r + 1) rest).length := by
        have := update_ranks_length rest (r + 1)
        simp [TradeSignalGenerator._update_ranks] at hk
        omega
      have hk2' : k' < rest.length := by simpa using hk'
      have e : (TradeSignalGenerator._update_ranks r (s :: rest))[k' + 1] =
          (TradeSignalGenerator._update_ranks (r + 1) rest)[k'] := by
        simp [TradeSignalGenerator._update_ranks]
      rw [e, ih (r + 1) k' hk2 hk2']
      have : r + 1 + (k' : ℤ) = r + ((k' : ℕ) + 1 : ℕ) := by push_cast; ring
      rw [this]
      simp only [List.getElem_cons_succ]

theorem update_ranks_map_conviction (l : List TradeSignal) :
    ∀ r : ℤ, (TradeSignalGenerator._update_ranks r l).map TradeSignal.conviction =
      l.map TradeSignal.conviction := by
  induction l with
  | nil => intro r; rfl
  | cons s rest ih =>
    intro r
    simp [TradeSignalGenerator._update_ranks, ih]

theorem pair_sublist_of_lt {α : Type} :
    ∀ (l : List α) (p q : ℕ) (hp : p < l.length) (hq : q < l.length), p < q →
    [l[p], l[q]].Sublist l := by
  intro l
  induction l with
  | nil =>
    intro p q hp
    exact absurd hp (by simp)
  | cons x t ih =>
    intro p q hp hq hpq
    match p, q with
    | 0, 0 => omega
    | 0, q' + 1 =>
      have hq' : q' < t.length := by simpa using hq
      exact List.Sublist.cons₂ x (List.singleton_sublist.mpr (List.getElem_mem hq'))
    | p' + 1, q' + 1 =>
      have hp' : p' < t.length := by simpa using hp
      have hq' : q' < t.length := by simpa using hq
      exact List.Sublist.cons x (ih p' q' hp' hq' (by omega))

theorem sublist_pair_index {α : Type} {a b : α} :
    ∀ {l : List α}, [a, b].Sublist l →
    ∃ (i j : ℕ) (hi : i < l.length) (hj : j < l.length), i < j ∧ l[i] = a ∧ l[j] = b := by
  intro l
  induction l with
  | nil =>
    intro h
    exact absurd h (by simp)
  | cons x t ih =>
    intro h
    cases h with
    | cons _ h' =>
      obtain ⟨i, j, hi, hj, hij, ha, hb⟩ := ih h'
      exact ⟨i + 1, j + 1, by simpa using hi, by simpa using hj, by omega,
        by simpa using ha, by simpa using hb⟩
    | cons₂ _ h' =>
      obtain ⟨j, hj, hb⟩ := List.mem_iff_getElem.mp (List.singleton_sublist.mp h')
      exact ⟨0, j + 1, by simp, by simpa using hj, by omega, rfl, by simpa using hb⟩

/-- C1: for an index-aligned call, `generate_signals` returns exactly one
signal per company, the rank fields are exactly 1..N in list order, the list
is sorted in descending order of conviction, and equal-conviction signals
keep the relative order their companies had in the input (stable sort). -/
theorem generate_signals_ranked_sorted_stable
    (now : ℤ) (companies : List Company) (ms : List MomentumScore)
    (ts : List MoatScore) (cats : List (String × Catalyst))
    (_hm : ms.length = companies.length) (_ht : ts.length = companies.length)
    (hnd : (companies.map Company.company_id).Nodup)
    (out : List TradeSignal)
    (hok : TradeSignalGenerator.generate_signals now companies ms ts cats = Except.ok out) :
    out.length = companies.length ∧
    (∀ (i : ℕ) (hi : i < out.length), out[i].rank = (i : ℤ) + 1) ∧
    List.Pairwise (fun a b => b.conviction ≤ a.conviction) out ∧
    (∀ (p q : ℕ) (hp : p < companies.length) (hq : q < companies.length), p < q →
      ∀ (i j : ℕ) (hi : i < out.length) (hj : j < out.length),
        out[i].company_id = companies[p].company_id →
        out[j].company_id = companies[q].company_id →
        out[i].conviction = out[j].conviction →
        i < j) := by
  unfold TradeSignalGenerator.generate_signals at hok
  rcases hl : TradeSignalGenerator._signals_loop now ms ts cats 0 companies
      with e | l <;> rw [hl] at hok
  · exact absurd hok (by simp)
  simp only [Except.ok.injEq] at hok
  subst hok
  obtain ⟨hlen, helem, _, _⟩ := signals_loop_ok_spec now ms ts cats companies 0 l hl
  have htrans : ∀ a b c : TradeSignal,
      (fun a b : TradeSignal => decide (b.conviction ≤ a.conviction)) a b = true →
      (fun a b : TradeSignal => decide (b.conviction ≤ a.conviction)) b c = true →
      (fun a b : TradeSignal => decide (b.conviction ≤ a.conviction)) a c = true := by
    intro a b c hab hbc
    simp only [decide_eq_true_eq] at *
    exact le_trans hbc hab
  have htotal : ∀ a b : TradeSignal,
      ((fun a b : TradeSignal => decide (b.conviction ≤ a.conviction)) a b ||
       (fun a b : TradeSignal => decide (b.conviction ≤ a.conviction)) b a) = true := by
    intro a b
    simp only [Bool.or_eq_true, decide_eq_true_eq]
    exact le_total _ _
  set sorted := l.mergeSort (fun a b => decide (b.conviction ≤ a.conviction))
    with hsorted_def
  have hlen_sorted : sorted.length = l.length := by
    rw [hsorted_def]
    exact List.length_mergeSort l
  have hout_len : (TradeSignalGenerator._update_ranks 1 sorted).length = companies.length := by
    rw [update_ranks_length, hlen_sorted, hlen]
  refine ⟨hout_len, ?_, ?_, ?_⟩
  · intro i hi
    have hi' : i < sorted.length := by rw [update_ranks_length] at hi; exact hi
    rw [update_ranks_getElem sorted 1 i hi hi']
    show (1 : ℤ) + (i : ℤ) = (i : ℤ) + 1
    omega
  · have hpw_sorted : List.Pairwise (fun a b => b.conviction ≤ a.conviction) sorted := by
      rw [hsorted_def]
      exact (List.sorted_mergeSort htrans htotal l).imp (fun h => of_decide_eq_true h)
    have h1 : List.Pairwise (fun x y : ℚ => y ≤ x) (sorted.map TradeSignal.conviction) :=
      List.pairwise_map.mpr hpw_sorted
    rw [← update_ranks_map_conviction sorted 1] at h1
    exact List.pairwise_map.mp h1
  · intro p q hp hq hpq i j hi hj hci hcj hconv
    have hpl : p < l.length := by omega
    have hql : q < l.length := by omega
    have hi' : i < sorted.length := by rw [update_ranks_length] at hi; exact hi
    have hj' : j < sorted.length := by rw [update_ranks_length] at hj; exact hj
    have eouti := update_ranks_getElem sorted 1 i hi hi'
    have eoutj := update_ranks_getElem sorted 1 j hj hj'
    rw [eouti] at hci hconv
    rw [eoutj] at hcj hconv
    have hci2 : sorted[i].company_id = companies[p].company_id := hci
    have hcj2 : sorted[j].company_id = companies[q].company_id := hcj
    have hconv2 : sorted[i].conviction = sorted[j].conviction := hconv
    have hmap_l : ∀ (k : ℕ) (hk : k < l.length) (hk2 : k < companies.length),
        l[k].company_id = companies[k].company_id := fun k hk hk2 => (helem k hk hk2).2
    have hlmap : l.map TradeSignal.company_id = companies.map Company.company_id := by
      apply List.ext_getElem (by simp [hlen])
      intro n h1 h2
      rw [List.getElem_map, List.getElem_map]
      exact hmap_l n (by simpa using h1) (by simpa using h2)
    have hndl : (l.map TradeSignal.company_id).Nodup := by rw [hlmap]; exact hnd
    have hnodl : l.Nodup := List.Nodup.of_map _ hndl
    have hperm : sorted.Perm l := by
      rw [hsorted_def]
      exact List.mergeSort_perm l _
    have hnod_sorted : sorted.Nodup := hperm.nodup_iff.mpr hnodl
    have hfind : ∀ (z : ℕ) (hz : z < sorted.length) (r : ℕ) (hr : r < companies.length)
        (hrl : r < l.length),
        sorted[z].company_id = companies[r].company_id → sorted[z] = l[r] := by
      intro z hz r hr hrl hzr
      have hmem : sorted[z] ∈ l := hperm.mem_iff.mp (List.getElem_mem hz)
      obtain ⟨k, hk, hkeq⟩ := List.mem_iff_getElem.mp hmem
      have hk2 : k < (l.map TradeSignal.company_id).length := by simpa using hk
      have hr2 : r < (l.map TradeSignal.company_id).length := by simpa using hrl
      have hmapkr : (l.map TradeSignal.company_id)[k] = (l.map TradeSignal.company_id)[r] := by
        rw [List.getElem_map, List.getElem_map, hkeq, hzr]
        exact (hmap_l r hrl hr).symm
      have hkr : k = r := (List.Nodup.getElem_inj_iff hndl).mp hmapkr
      subst hkr
      exact hkeq.symm
    have hip : sorted[i] = l[p] := hfind i hi' p hp hpl hci2
    have hjq : sorted[j] = l[q] := hfind j hj' q hq hql hcj2
    have hconvl : l[p].conviction = l[q].conviction := by
      rw [← hip, ← hjq]
      exact hconv2
    have hsub : [l[p], l[q]].Sublist l := pair_sublist_of_lt l p q hpl hql hpq
    have hpair : List.Pairwise
        (fun a b => (fun a b : TradeSignal => decide (b.conviction ≤ a.conviction)) a b = true)
        [l[p], l[q]] := by
      apply List.pairwise_pair.mpr
      exact decide_eq_true (le_of_eq hconvl.symm)
    have hsub2 : [l[p], l[q]].Sublist sorted := by
      rw [hsorted_def]
      exact List.sublist_mergeSort htrans htotal hpair hsub
    obtain ⟨i2, j2, hi2, hj2, hij2, ha2, hb2⟩ := sublist_pair_index hsub2
    have hii : i2 = i := by
      have : sorted[i2] = sorted[i] := by rw [ha2, hip]
      exact (List.Nodup.getElem_inj_iff hnod_sorted).mp this
    have hjj : j2 = j := by
      have : sorted[j2] = sorted[j] := by rw [hb2, hjq]
      exact (List.Nodup.getElem_inj_iff hnod_sorted).mp this
    omega

/-- C6 (amended): `generate_signals` performs no batch-alignment validation.
When it returns a list at all, the score lists were at least as long as the
company list and the output has one signal per company; a too-short score
list surfaces as a plain index error (not a "misaligned batch" error); and
score lists longer than the company list are accepted silently. -/
theorem generate_signals_no_misaligned_check :
    (∀ (now : ℤ) (companies : List Company) (ms : List MomentumScore)
        (ts : List MoatScore) (cats : List (String × Catalyst)) (out : List TradeSignal),
      TradeSignalGenerator.generate_signals now companies ms ts cats = Except.ok out →
      companies.length ≤ ms.length ∧ companies.length ≤ ts.length ∧
      out.length = companies.length) ∧
    TradeSignalGenerator.generate_signals 0 [sampleCompany, sampleCompany2]
      [sampleMomentumScore] [sampleMoatScore, sampleMoatScore2] [] =
      Except.error "IndexError" := by
  constructor
  · intro now companies ms ts cats out hok
    unfold TradeSignalGenerator.generate_signals at hok
    rcases hl : TradeSignalGenerator._signals_loop now ms ts cats 0 companies
        with e | l <;> rw [hl] at hok
    · exact absurd hok (by simp)
    simp only [Except.ok.injEq] at hok
    subst hok
    obtain ⟨hlen, _, hms, hts⟩ := signals_loop_ok_spec now ms ts cats companies 0 l hl
    refine ⟨?_, ?_, ?_⟩
    · rcases Nat.eq_zero_or_pos companies.length with h0 | h0
      · omega
      · have := hms (companies.length - 1) (by omega)
        omega
    · rcases Nat.eq_zero_or_pos companies.length with h0 | h0
      · omega
      · have := hts (companies.length - 1) (by omega)
        omega
    · rw [update_ranks_length, List.length_mergeSort, hlen]
  · with_unfolding_all rfl

/-- C6 counterexample: a call whose list lengths do not all agree (one
company, two momentum scores, two moat scores) does not fail at all — it
returns a signal list. -/
theorem generate_signals_misaligned_counterexample :
    [sampleCompany].length ≠ [sampleMomentumScore, sampleMomentumScore2].length ∧
    (TradeSignalGenerator.generate_signals 0 [sampleCompany]
      [sampleMomentumScore, sampleMomentumScore2]
      [sampleMoatScore, sampleMoatScore2] []).isOk = true :=
  ⟨by simp, by with_unfolding_all rfl⟩

/-- Witness for C1 at a concrete one-company call. -/
theorem generate_signals_ranked_sorted_stable_witness :
    sampleSignalsOut.length = [sampleCompany].length :=
  (generate_signals_ranked_sorted_stable 0 [sampleCompany] [sampleMomentumScore]
    [sampleMoatScore] [] rfl rfl (by simp) sampleSignalsOut
    (by with_unfolding_all rfl)).1

/-- Witness for C2 at the adversarial combination. -/
theorem calculate_conviction_formula_bounds_witness :
    TradeSignalGenerator._calculate_conviction advMomentumScore advMoatScore none = 85/100 :=
  calculate_conviction_formula_bounds.2.2 advMomentumScore advMoatScore rfl rfl rfl

/-- Witness for C6 at a concrete aligned call. -/
theorem generate_signals_no_misaligned_check_witness :
    [sampleCompany].length ≤ [sampleMomentumScore].length ∧
    [sampleCompany].length ≤ [sampleMoatScore].length ∧
    sampleSignalsOut.length = [sampleCompany].length :=
  generate_signals_no_misaligned_check.1 0 [sampleCompany] [sampleMomentumScore]
    [sampleMoatScore] [] sampleSignalsOut (by with_unfolding_all rfl)

/-- Witness for C7 at a company with exactly $100M total funding. -/
theorem predict_ma_timing_bounds_witness :
    sampleMACatalyst.confidence = 35/100 +
      (if company100M.sector = Sector.CYBERSECURITY ∨ company100M.sector = Sector.DATA_INFRA ∨
          company100M.sector = Sector.BIOTECH_INFRA then 15/100 else 0) ∧
    sampleMACatalyst.estimated_date = 0 + 540 :=
  predict_ma_timing_bounds.2 0 company100M sampleMACatalyst (by with_unfolding_all rfl)

/-- Witness for C8 at momentum scores of exactly 70 and of 70.01. -/
theorem second_order_strict_threshold_witness :
    SecondOrderArbitrageEngine.find_second_order_plays 0 [momentum70] [] = [] ∧
    SecondOrderArbitrageEngine.find_second_order_plays 0 [momentum7001] [] ≠ [] :=
  ⟨second_order_strict_threshold.1 0 [momentum70] []
      (by
        intro s hs
        rw [List.mem_singleton] at hs
        subst hs
        exact le_refl _),
    second_order_strict_threshold.2 0 momentum7001 []
      (by
        show (70 : ℚ) < 7001/100
        norm_num)⟩

set_option maxRecDepth 100000 in
/-- Witness for C9: two companies whose composite scores come out in
ascending order, so both batch sorts reorder and break index alignment. -/
theorem batch_scorers_sorted_desc_witness :
    (MomentumScoringEngine.score_companies 0 [sampleCompany, companyBig] none).map
        MomentumScore.company_id ≠
      [sampleCompany, companyBig].map Company.company_id ∧
    (MoatScoringEngine.score_companies 0 [sampleCompany, companyBig] []).map
        MoatScore.company_id ≠
      [sampleCompany, companyBig].map Company.company_id := by
  constructor
  · apply (batch_scorers_sorted_desc.1 0 [sampleCompany, companyBig] none).2.2
    · decide
    · intro heq
      have hpw := (batch_scorers_sorted_desc.1 0 [sampleCompany, companyBig] none).2.1
      rw [heq] at hpw
      rw [List.map_cons, List.map_cons, List.map_nil] at hpw
      cases hpw with
      | cons h1 _ =>
        exact absurd (h1 _ (List.mem_singleton.mpr rfl)) (by with_unfolding_all decide)
  · apply (batch_scorers_sorted_desc.2 0 [sampleCompany, companyBig] []).2.2
    · decide
    · intro heq
      have hpw := (batch_scorers_sorted_desc.2 0 [sampleCompany, companyBig] []).2.1
      rw [heq] at hpw
      rw [List.map_cons, List.map_cons, List.map_nil] at hpw
      cases hpw with
      | cons h1 _ =>
        exact absurd (h1 _ (List.mem_singleton.mpr rfl)) (by with_unfolding_all decide)

/-- Witness for C10 at a company with proxies and at a generated signal. -/
theorem public_proxy_always_present_witness :
    TradeSignalGenerator._max_by_correlation ⟨"AAA", "direct", 50/100, none⟩
        [⟨"BBB", "supplier", 75/100, none⟩] ∈ companyWithProxies.public_proxies ∧
    sampleSignal.public_proxy.isSome = true :=
  ⟨(public_proxy_always_present.2.2.1 companyWithProxies ⟨"AAA", "direct", 50/100, none⟩
      [⟨"BBB", "supplier", 75/100, none⟩] rfl).1,
   public_proxy_always_present.2.2.2 0 1 sampleCompany sampleMomentumScore sampleMoatScore
     none sampleSignal (by with_unfolding_all rfl)⟩

/-- C7 counterexample: at exactly $100M total funding the claim's strict
lower bound says no catalyst is returned, but `predict_ma_timing` does
return one (the code's cutoff is `< $100M`, i.e. inclusive at $100M). -/
theorem predict_ma_timing_counterexample :
    ¬ (100000000 < company100M.total_funding) ∧
    (TimingPredictionEngine.predict_ma_timing 0 company100M).isSome = true := by
  constructor
  · show ¬ ((100000000 : ℚ) < 100000000)
    exact lt_irrefl _
  · with_unfolding_all rfl
